import Mathlib

/-!
Verification of the caption-reconstruction benchmark core against its
natural-language specification.  The Python sources are shallowly embedded:
pure functions become Lean functions, Python `dict`s become association
lists, machine floats used as score values become rationals, and fallible
code returns `Except`/`Option`.
-/

set_option autoImplicit false

namespace CaptionRecon

/-! ## Sequence model (src/data_models.py)

A `CaptionedClip` as far as the verified components inspect it: its stable
integer index and its optional caption (`none` denotes "masked").  The time
range is never read by the masking, reconstruction, validation or
aggregation code, so it is omitted from the embedding. -/

structure PyClip where
  index : Nat
  caption : Option String
  deriving Repr, DecidableEq

/-- `CaptionedVideo.check_indices_are_sequential` (src/data_models.py:33-41):
walks the clip list in order and raises on the first position whose clip
index differs from the position; the error records that position together
with the offending index.  On success it returns the clip list. -/
def check_indices_aux : Nat → List PyClip → Except (Nat × Nat) (List PyClip)
  | _, [] => .ok []
  | i, c :: cs =>
    if c.index ≠ i then .error (i, c.index)
    else (check_indices_aux (i + 1) cs).map (c :: ·)

def check_indices_are_sequential (clips : List PyClip) : Except (Nat × Nat) (List PyClip) :=
  check_indices_aux 0 clips

/-! ## Carry-forward baseline (src/reconstruction_strategies.py:62-89)

`BaselineRepeatStrategy.reconstruct`: a first pass finds the first non-null
caption, a second pass emits `reconstructed_captions[clip.index] =
last_known_caption` for every masked clip, updating `last_known_caption` at
every non-masked clip.  The resulting dict is then validated by the
`Reconstructed` pydantic model, whose `reconstructed_captions : dict[int, str]`
field rejects `None` values, so a dict containing a `None` caption makes the
construction raise. -/

def baselineSecondPass : Option String → List PyClip → List (Nat × Option String)
  | _, [] => []
  | last, c :: cs =>
    match c.caption with
    | some cap => baselineSecondPass (some cap) cs
    | none => (c.index, last) :: baselineSecondPass last cs

def firstValidCaption (clips : List PyClip) : Option String :=
  (clips.filterMap (·.caption)).head?

/-- `BaselineRepeatStrategy.reconstruct`.  `Except.error ()` models the
pydantic `ValidationError` raised (and re-raised after logging) when the
built dict contains a `None` value, i.e. when no clip carries a caption. -/
def baselineReconstruct (clips : List PyClip) : Except Unit (List (Nat × String)) :=
  let pairs := baselineSecondPass (firstValidCaption clips) clips
  if pairs.all (fun p => p.2.isSome) then
    .ok (pairs.map (fun p => (p.1, p.2.getD "")))
  else
    .error ()

/-! ## Partition masking (src/masking.py:99-129)

`PartitionMasking._get_indices_to_mask`: returns `∅` when there are more
partitions than clips; otherwise divides `[0, num_clips)` into
`num_partitions` contiguous blocks (the first `num_clips % num_partitions`
blocks get one extra element) and unions the blocks with numbers in
`[start_partition, start_partition + num_parts_to_mask)`, skipping numbers
beyond the last block. -/

def buildPartitions (num_partitions base_size remainder : Nat) : List (List Nat) :=
  ((List.range num_partitions).foldl
    (fun (st : List (List Nat) × Nat) i =>
      let part_size := if i < remainder then base_size + 1 else base_size
      (st.1 ++ [List.range' st.2 part_size], st.2 + part_size))
    ([], 0)).1

def partitionGetIndicesToMask (num_partitions start_partition num_parts_to_mask num_clips : Nat) :
    Finset Nat :=
  if num_partitions > num_clips then ∅
  else
    let base_size := num_clips / num_partitions
    let remainder := num_clips % num_partitions
    let parts := buildPartitions num_partitions base_size remainder
    (List.range' start_partition num_parts_to_mask).foldl
      (fun s i => if i < parts.length then s ∪ (parts.getD i []).toFinset else s) ∅

/-- The `scheme == "partition"` arm of `get_masking_strategies`
(src/masking.py:154-167): for each requested block count not exceeding
`num_partitions`, enumerate every starting partition `0 .. num_partitions -
num_parts_to_mask` in increasing order.  A strategy instance is represented
by its parameter triple `(num_partitions, start_partition, num_parts_to_mask)`. -/
def getPartitionStrategies (num_partitions : Nat) (num_parts_to_mask_list : List Nat) :
    List (Nat × Nat × Nat) :=
  num_parts_to_mask_list.foldl
    (fun acc num_to_mask =>
      if num_to_mask > num_partitions then acc
      else
        acc ++ (List.range (num_partitions - num_to_mask + 1)).map
          (fun start_part => (num_partitions, start_part, num_to_mask)))
    []

/-! ## LLM reconstruction (src/reconstruction_strategies.py:99-175)

The parsed response is a list of `(index, caption)` pairs.  Python dicts are
embedded as association lists with unique keys, first-occurrence key order
and last-wins values, matching the dict comprehension
`{item.index: item.caption for item in self.root}` of
`ReconstructedCaptions.to_dict` (src/data_models.py:59-65). -/

def dictInsert (d : List (Nat × String)) (k : Nat) (v : String) : List (Nat × String) :=
  if d.any (fun p => p.1 = k) then
    d.map (fun p => if p.1 = k then (k, v) else p)
  else d ++ [(k, v)]

def toDict (pairs : List (Nat × String)) : List (Nat × String) :=
  pairs.foldl (fun d p => dictInsert d p.1 p.2) []

/-- Python `dict.get`: the value stored at `k`, if present. -/
def dictGet (d : List (Nat × String)) (k : Nat) : Option String :=
  (d.find? (fun p => p.1 = k)).map (·.2)

/-- Modelled from the spec: the duplicate-index report of the parsed
response.  The variant of `to_dict` unpacked at
src/reconstruction_strategies.py:117 (`recon_caps, dups = ...to_dict()`) is
missing from the sources (the `to_dict` in src/data_models.py returns only
the dict); the spec says "the response contains duplicate indices
(`debug_data.dups` lists them)", so `dups` is the list of indices occurring
more than once among the parsed pairs. -/
def dupIndices (pairs : List (Nat × String)) : List Nat :=
  ((pairs.map Prod.fst).dedup).filter (fun i => 1 < (pairs.map Prod.fst).count i)

/-- The shapes `debug_data` takes in `LLMStrategy.reconstruct`. -/
inductive LLMDebug where
  | emptyResponse
  | parseFailed
  | toDictFailed
  | dupsFound (dups : List Nat)
  | reconcile (ok failed changed_unmasked : List Nat)
  deriving Repr, DecidableEq

structure LLMRecon where
  reconstructed_captions : List (Nat × String)
  debug_data : Option LLMDebug
  deriving Repr, DecidableEq

/-- The reconcile loop of `LLMStrategy.reconstruct`
(src/reconstruction_strategies.py:134-149): walks the clips in order; a
masked clip whose looked-up caption is truthy (present and non-empty) is
accepted, otherwise it is recorded as failed and emitted with an
empty-string caption; a non-masked clip whose index appears in the response
with a different caption is recorded as changed_unmasked.  Returns
`(ok, failed, changed_unmasked, reconstructed_dict)`. -/
def reconcile (recon_caps : List (Nat × String)) :
    List PyClip → List Nat × List Nat × List Nat × List (Nat × String)
  | [] => ([], [], [], [])
  | c :: cs =>
    let (ok, failed, changed, d) := reconcile recon_caps cs
    match c.caption with
    | none =>
      match dictGet recon_caps c.index with
      | some new_cap =>
        if new_cap ≠ "" then (c.index :: ok, failed, changed, (c.index, new_cap) :: d)
        else (ok, c.index :: failed, changed, (c.index, "") :: d)
      | none => (ok, c.index :: failed, changed, (c.index, "") :: d)
    | some orig =>
      if (recon_caps.any (fun p => p.1 = c.index)) ∧ dictGet recon_caps c.index ≠ some orig then
        (ok, failed, c.index :: changed, d)
      else (ok, failed, changed, d)

/-- `LLMStrategy.reconstruct` (src/reconstruction_strategies.py:99-175)
from the point where the oracle's response has been obtained.  `parsed =
none` models a `None`/empty parse result; the earlier empty-response branch
is behaviourally identical and folded into the same failure shape. -/
def llmReconstruct (clips : List PyClip) (parsed : Option (List (Nat × String))) : LLMRecon :=
  match parsed with
  | none => ⟨[], some .parseFailed⟩
  | some pairs =>
    let recon_caps := toDict pairs
    let dups := dupIndices pairs
    if recon_caps = [] then ⟨[], some .toDictFailed⟩
    else if dups ≠ [] then ⟨[], some (.dupsFound dups)⟩
    else
      let (ok, failed, changed, d) := reconcile recon_caps clips
      if failed ≠ [] ∨ changed ≠ [] then ⟨d, some (.reconcile ok failed changed)⟩
      else ⟨d, none⟩

/-! ## Experiment runner (src/experiment_runner.py:30-101)

`ExperimentRunner.run` is embedded over per-video inputs that record what
the injected collaborators would return for that video: the mask index set
computed by the masking strategy (empty ⇒ `mask_video` returns `None` and
the video is skipped), the reconstruction result (`none` models a falsy
result object), and the metrics dict the evaluator would produce if
reached.  Scores are rationals; a video's metrics hold the per-clip
precision/recall/F1 sequences `bs_p`, `bs_r`, `bs_f1`. -/

structure RunnerMetrics where
  bs_p : List ℚ
  bs_r : List ℚ
  bs_f1 : List ℚ
  deriving Repr, DecidableEq

/-- What the runner reads from a `Reconstructed` result: the key set of
`reconstructed_clips` and the optional `debug_data` (with the list stored
under its `'failed'` key; `[]` models an absent or empty entry, matching
the truthiness test `debug_data.get('failed', 0)`). -/
structure RunnerRecon where
  clipKeys : Finset Nat
  debug_data : Option (List Nat)
  deriving DecidableEq

structure VideoInput where
  maskIndices : Finset Nat
  recon : Option RunnerRecon
  metrics : RunnerMetrics
  deriving DecidableEq

/-- The per-video log entry appended to `all_recon_videos`. -/
inductive RunnerLog where
  | skipNotMasking
  | skipFail
  | skipFailedPositive
  | skipBadIndices (maskIndices : Finset Nat)
  | scored (metrics : RunnerMetrics)
  deriving DecidableEq

/-- One iteration of the video loop of `ExperimentRunner.run`
(src/experiment_runner.py:36-83).  `Except.error` models the
`raise Exception(crit_msg)` that aborts the whole batch; otherwise the
video contributes a log entry and, when scored, its metrics. -/
def processVideo (v : VideoInput) : Except Unit (RunnerLog × Option RunnerMetrics) :=
  if v.maskIndices = ∅ then .ok (.skipNotMasking, none)
  else
    match v.recon with
    | none => .ok (.skipFail, none)
    | some r =>
      if r.clipKeys = ∅ then .ok (.skipFail, none)
      else if r.clipKeys ≠ v.maskIndices ∧ r.debug_data = none then .error ()
      else if (r.debug_data.getD []) ≠ [] then .ok (.skipFailedPositive, none)
      else if r.clipKeys ≠ v.maskIndices then .ok (.skipBadIndices v.maskIndices, none)
      else .ok (.scored v.metrics, some v.metrics)

/-- The video loop: processes videos in order, accumulating the log and the
scored metrics, stopping with the critical exception if one is raised. -/
def runVideos : List VideoInput → Except Unit (List RunnerLog × List RunnerMetrics)
  | [] => .ok ([], [])
  | v :: vs =>
    match processVideo v with
    | .error e => .error e
    | .ok (entry, m) =>
      match runVideos vs with
      | .error e => .error e
      | .ok (logs, ms) => .ok (entry :: logs, (m.toList) ++ ms)

/-- Python `tensor.min()` over a non-empty score list (`[]` is mapped to `0`;
the runner only ever reaches `.min()` with non-empty lists). -/
def pyMin : List ℚ → ℚ
  | [] => 0
  | x :: xs => xs.foldl min x

/-- `statistics.mean` over rationals. -/
def pyMean (l : List ℚ) : ℚ := l.sum / l.length

structure AggMetrics where
  num_of_instances : Nat
  mean_f1_score : ℚ
  mean_precision : ℚ
  mean_recall : ℚ
  deriving Repr, DecidableEq

/-- The aggregation tail of `ExperimentRunner.run`
(src/experiment_runner.py:85-101): `none` models the empty-dict return when
no metrics were generated. -/
def aggregateMetrics (all_metrics : List RunnerMetrics) : Option AggMetrics :=
  if all_metrics = [] then none
  else
    some
      { num_of_instances := all_metrics.length
        mean_f1_score := pyMean (all_metrics.map (fun m => pyMin m.bs_f1))
        mean_precision := pyMean (all_metrics.map (fun m => pyMin m.bs_p))
        mean_recall := pyMean (all_metrics.map (fun m => pyMin m.bs_r)) }

/-- `ExperimentRunner.run` end to end over the per-video inputs. -/
def runnerRun (videos : List VideoInput) :
    Except Unit (List RunnerLog × List RunnerMetrics × Option AggMetrics) :=
  match runVideos videos with
  | .error e => .error e
  | .ok (logs, ms) => .ok (logs, ms, aggregateMetrics ms)

/-! ## Theorems -/

theorem check_indices_aux_ok_of (n : Nat) (clips : List PyClip)
    (h : ∀ i (hi : i < clips.length), (clips.get ⟨i, hi⟩).index = n + i) :
    check_indices_aux n clips = .ok clips := by
  induction clips generalizing n with
  | nil => rfl
  | cons c cs ih =>
    have h0 : c.index = n := by simpa using h 0 (by simp)
    have hrest : check_indices_aux (n + 1) cs = .ok cs := by
      apply ih
      intro i hi
      have := h (i + 1) (by simpa using Nat.succ_lt_succ hi)
      simpa [Nat.add_assoc, Nat.add_comm 1 i] using this
    simp [check_indices_aux, h0, hrest, Except.map]

theorem check_indices_aux_error_of (n : Nat) (clips : List PyClip) (i : Nat) (hi : i < clips.length)
    (hfirst : ∀ k (hk : k < i), (clips.get ⟨k, Nat.lt_trans hk hi⟩).index = n + k)
    (hbad : (clips.get ⟨i, hi⟩).index ≠ n + i) :
    check_indices_aux n clips = .error (n + i, (clips.get ⟨i, hi⟩).index) := by
  induction clips generalizing n i with
  | nil => exact absurd hi (by simp)
  | cons c cs ih =>
    cases i with
    | zero =>
      have : c.index ≠ n := by simpa using hbad
      simp [check_indices_aux, this]
    | succ j =>
      have h0 : c.index = n := by simpa using hfirst 0 (Nat.succ_pos j)
      have hj : j < cs.length := by simpa using Nat.lt_of_succ_lt_succ hi
      have hrest : check_indices_aux (n + 1) cs = .error (n + 1 + j, (cs.get ⟨j, hj⟩).index) := by
        apply ih
        · intro k hk
          have := hfirst (k + 1) (Nat.succ_lt_succ hk)
          simpa [Nat.add_assoc, Nat.add_comm 1 k] using this
        · have := hbad
          simpa [Nat.add_assoc, Nat.add_comm 1 j] using this
      have : n + 1 + j = n + (j + 1) := by omega
      simp [check_indices_aux, h0, hrest, Except.map, this]

theorem check_indices_aux_ok_elim (n : Nat) (clips : List PyClip) (l : List PyClip)
    (h : check_indices_aux n clips = .ok l) :
    l = clips ∧ ∀ i (hi : i < clips.length), (clips.get ⟨i, hi⟩).index = n + i := by
  induction clips generalizing n l with
  | nil =>
    simp only [check_indices_aux, Except.ok.injEq] at h
    exact ⟨h.symm, fun i hi => absurd hi (by simp)⟩
  | cons c cs ih =>
    by_cases hc : c.index = n
    · simp only [check_indices_aux, hc, ne_eq, not_true_eq_false, if_false] at h
      rcases hrec : check_indices_aux (n + 1) cs with e | l'
      · rw [hrec] at h; simp [Except.map] at h
      · rw [hrec] at h
        simp only [Except.map, Except.ok.injEq] at h
        obtain ⟨hl', hidx⟩ := ih (n + 1) l' hrec
        refine ⟨by rw [← h, hl'], ?_⟩
        intro i hi
        cases i with
        | zero => simpa using hc
        | succ j =>
          have hj : j < cs.length := by simpa using Nat.lt_of_succ_lt_succ hi
          have hx := hidx j hj
          exact hx.trans (by omega)
    · simp only [check_indices_aux, ne_eq, hc, not_false_eq_true, if_true] at h
      exact absurd h (by simp)

/-- C9: every clip list accepted by `CaptionedVideo`'s validator satisfies
`clip[i].index == i` at every position (and conversely), and a violating
clip list is rejected with an error naming the first position whose clip
index differs from the position, together with that offending index (the
code raises a pydantic `ValueError` carrying exactly these two numbers; the
spec calls this failure `SequenceIndexError`). -/
theorem C9_sequential_index_invariant (clips : List PyClip) :
    (∀ l, check_indices_are_sequential clips = .ok l →
      l = clips ∧ ∀ i (hi : i < clips.length), (clips.get ⟨i, hi⟩).index = i) ∧
    ((∀ i (hi : i < clips.length), (clips.get ⟨i, hi⟩).index = i) →
      check_indices_are_sequential clips = .ok clips) ∧
    (∀ i (hi : i < clips.length),
      (∀ k (hk : k < i), (clips.get ⟨k, Nat.lt_trans hk hi⟩).index = k) →
      (clips.get ⟨i, hi⟩).index ≠ i →
      check_indices_are_sequential clips = .error (i, (clips.get ⟨i, hi⟩).index)) := by
  refine ⟨?_, ?_, ?_⟩
  · intro l h
    have := check_indices_aux_ok_elim 0 clips l h
    exact ⟨this.1, fun i hi => by simpa using this.2 i hi⟩
  · intro h
    exact check_indices_aux_ok_of 0 clips (fun i hi => by simpa using h i hi)
  · intro i hi hfirst hbad
    have := check_indices_aux_error_of 0 clips i hi
      (fun k hk => by simpa using hfirst k hk) (by simpa using hbad)
    simpa using this

/-- Witness for C9: the valid two-clip list is accepted, and the list whose
second clip carries index 5 is rejected at position 1 naming index 5. -/
theorem C9_sequential_index_invariant_witness :
    check_indices_are_sequential [⟨0, none⟩, ⟨1, none⟩] = .ok [⟨0, none⟩, ⟨1, none⟩] ∧
    check_indices_are_sequential [⟨0, none⟩, ⟨5, none⟩] = .error (1, 5) := by
  constructor
  · exact (C9_sequential_index_invariant [⟨0, none⟩, ⟨1, none⟩]).2.1 (by decide)
  · exact (C9_sequential_index_invariant [⟨0, none⟩, ⟨5, none⟩]).2.2 1 (by decide)
      (by decide) (by decide)

/-- C8: expanding a partition sweep spec with `num_partitions = 5` and
`num_parts_to_mask = 1` yields exactly the five strategy instances with
starting partitions `0..4` in that stable order; they are pairwise
distinct, and on a 10-clip video their mask sets are `{0,1}, {2,3}, {4,5},
{6,7}, {8,9}`: pairwise disjoint and together covering every index of
`[0, 10)` exactly once. -/
theorem C8_partition_sweep_cover :
    getPartitionStrategies 5 [1] =
      [(5, 0, 1), (5, 1, 1), (5, 2, 1), (5, 3, 1), (5, 4, 1)] ∧
    (getPartitionStrategies 5 [1]).Nodup ∧
    (getPartitionStrategies 5 [1]).length = 5 ∧
    (getPartitionStrategies 5 [1]).map
        (fun t => partitionGetIndicesToMask t.1 t.2.1 t.2.2 10) =
      [{0, 1}, {2, 3}, {4, 5}, {6, 7}, {8, 9}] ∧
    ((List.range 10).all (fun x =>
      (getPartitionStrategies 5 [1]).countP
        (fun t => decide (x ∈ partitionGetIndicesToMask t.1 t.2.1 t.2.2 10)) = 1) = true) := by
  exact ⟨by decide, by decide, by decide, by decide, by decide⟩

/-- The running `last_known_caption` value after scanning `clips`, starting
from fallback `fb` (spec-side description of the second pass's state). -/
def lastKnownOpt (clips : List PyClip) (fb : Option String) : Option String :=
  clips.foldl (fun acc c => match c.caption with | some v => some v | none => acc) fb

theorem lastKnownOpt_eq_getLast?_or (clips : List PyClip) (fb : Option String) :
    lastKnownOpt clips fb = ((clips.filterMap (·.caption)).getLast?).or fb := by
  induction clips generalizing fb with
  | nil => simp [lastKnownOpt]
  | cons c t ih =>
    rcases hc : c.caption with _ | v
    · simpa [lastKnownOpt, hc, List.filterMap_cons] using ih fb
    · have step : lastKnownOpt (c :: t) fb = lastKnownOpt t (some v) := by
        simp [lastKnownOpt, hc]
      rw [step, ih (some v)]
      rcases hft : t.filterMap (·.caption) with _ | ⟨y, ys⟩
      · simp [List.filterMap_cons, hc, hft]
      · rcases hgl : (y :: ys).getLast? with _ | z
        · simp at hgl
        · simp [List.filterMap_cons, hc, hft, List.getLast?_cons_cons, hgl, Option.or]

theorem baselineSecondPass_keys (clips : List PyClip) (fb : Option String) :
    (baselineSecondPass fb clips).map Prod.fst =
      (clips.filter (fun c => c.caption = none)).map (·.index) := by
  induction clips generalizing fb with
  | nil => rfl
  | cons c t ih =>
    rcases hc : c.caption with _ | v
    · simp [baselineSecondPass, hc, List.filter_cons, ih]
    · simp [baselineSecondPass, hc, List.filter_cons, ih]

theorem baselineSecondPass_mem (clips : List PyClip) (fb : Option String)
    (i : Nat) (hi : i < clips.length) (hm : (clips.get ⟨i, hi⟩).caption = none) :
    ((clips.get ⟨i, hi⟩).index, lastKnownOpt (clips.take i) fb) ∈ baselineSecondPass fb clips := by
  induction clips generalizing fb i with
  | nil => exact absurd hi (by simp)
  | cons c t ih =>
    cases i with
    | zero =>
      have hc : c.caption = none := by simpa using hm
      simp [baselineSecondPass, hc, lastKnownOpt]
    | succ j =>
      have hj : j < t.length := by simpa using Nat.lt_of_succ_lt_succ hi
      have hm' : (t.get ⟨j, hj⟩).caption = none := by simpa using hm
      rcases hc : c.caption with _ | v
      · have := ih fb j hj hm'
        have hstep : lastKnownOpt ((c :: t).take (j + 1)) fb = lastKnownOpt (t.take j) fb := by
          simp [List.take_succ_cons, lastKnownOpt, hc]
        rw [show ((c :: t).get ⟨j + 1, hi⟩) = t.get ⟨j, hj⟩ from rfl, hstep]
        simp only [baselineSecondPass, hc]
        exact List.mem_cons_of_mem _ this
      · have := ih (some v) j hj hm'
        have hstep : lastKnownOpt ((c :: t).take (j + 1)) fb = lastKnownOpt (t.take j) (some v) := by
          simp [List.take_succ_cons, lastKnownOpt, hc]
        rw [show ((c :: t).get ⟨j + 1, hi⟩) = t.get ⟨j, hj⟩ from rfl, hstep]
        simpa only [baselineSecondPass, hc] using this

theorem baselineSecondPass_isSome (clips : List PyClip) (fb : Option String)
    (hfb : fb.isSome) :
    ∀ p ∈ baselineSecondPass fb clips, p.2.isSome := by
  induction clips generalizing fb with
  | nil => simp [baselineSecondPass]
  | cons c t ih =>
    intro p hp
    rcases hc : c.caption with _ | v
    · simp only [baselineSecondPass, hc] at hp
      rcases List.mem_cons.mp hp with h | h
      · rw [h]; exact hfb
      · exact ih fb hfb p h
    · simp only [baselineSecondPass, hc] at hp
      exact ih (some v) (by simp) p hp

/-- The first spec example for the carry-forward baseline: captions
`[A, None, None, B, None]`. -/
def carryExampleA : List PyClip :=
  [⟨0, some "A"⟩, ⟨1, none⟩, ⟨2, none⟩, ⟨3, some "B"⟩, ⟨4, none⟩]

/-- The second spec example: captions `[None, None, B]`. -/
def carryExampleB : List PyClip :=
  [⟨0, none⟩, ⟨1, none⟩, ⟨2, some "B"⟩]

/-- C3 (amended): on the two spec examples the baseline produces
`{1:A, 2:A, 4:B}` and `{0:B, 1:B}`; in general, whenever at least one clip
carries a caption, reconstruction succeeds, the emitted keys are exactly
the masked clips' indices in order, and each masked position `i` is mapped
to the nearest preceding non-masked caption
(`((clips.take i).filterMap caption).getLast?`), falling back — when no
non-masked clip precedes `i` — to the first non-masked caption of the
sequence, which then lies after `i` (back-filling).  The all-masked case is
settled separately: the code raises there instead of returning `None`
outputs. -/
theorem C3_baseline_repeat (clips : List PyClip)
    (h : ∃ c ∈ clips, c.caption ≠ none) :
    baselineReconstruct carryExampleA = .ok [(1, "A"), (2, "A"), (4, "B")] ∧
    baselineReconstruct carryExampleB = .ok [(0, "B"), (1, "B")] ∧
    baselineReconstruct clips = .ok ((baselineReconstruct clips).toOption.getD []) ∧
    ((baselineReconstruct clips).toOption.getD []).map Prod.fst =
      (clips.filter (fun c => c.caption = none)).map (·.index) ∧
    ∀ i (hi : i < clips.length), (clips.get ⟨i, hi⟩).caption = none →
      ((clips.get ⟨i, hi⟩).index,
        (((clips.take i).filterMap (·.caption)).getLast?).getD
          (((clips.filterMap (·.caption)).head?).getD "")) ∈
        ((baselineReconstruct clips).toOption.getD []) := by
  obtain ⟨c0, hc0, hcap⟩ := h
  obtain ⟨f, hf⟩ : ∃ f, firstValidCaption clips = some f := by
    rcases hfv : firstValidCaption clips with _ | f
    · exfalso
      have : clips.filterMap (·.caption) = [] := by
        simpa [firstValidCaption, List.head?_eq_none_iff] using hfv
      rcases hx : c0.caption with _ | v
      · exact hcap hx
      · have : v ∈ clips.filterMap (·.caption) :=
          List.mem_filterMap.mpr ⟨c0, hc0, hx⟩
        simp_all
    · exact ⟨f, rfl⟩
  have hall : (baselineSecondPass (firstValidCaption clips) clips).all
      (fun p => p.2.isSome) = true := by
    rw [List.all_eq_true]
    intro p hp
    have := baselineSecondPass_isSome clips (firstValidCaption clips) (by simp [hf]) p hp
    simpa using this
  have hok : baselineReconstruct clips =
      .ok ((baselineSecondPass (firstValidCaption clips) clips).map
        (fun p => (p.1, p.2.getD ""))) := by
    rw [baselineReconstruct]
    simp only [hall, if_pos]
  refine ⟨by rfl, by rfl, ?_, ?_, ?_⟩
  · rw [hok]; rfl
  · rw [hok]
    simp only [Except.toOption, Option.getD_some, List.map_map]
    have := baselineSecondPass_keys clips (firstValidCaption clips)
    rw [← this]
    rfl
  · intro i hi hm
    have hmem := baselineSecondPass_mem clips (firstValidCaption clips) i hi hm
    rw [hok]
    simp only [Except.toOption, Option.getD_some]
    have hval : lastKnownOpt (clips.take i) (firstValidCaption clips) =
        some ((((clips.take i).filterMap (·.caption)).getLast?).getD
          (((clips.filterMap (·.caption)).head?).getD "")) := by
      have hh : (List.filterMap (fun x => x.caption) clips).head? = some f := hf
      rw [lastKnownOpt_eq_getLast?_or, hf]
      rcases hgl : ((clips.take i).filterMap (·.caption)).getLast? with _ | w
      · rw [hgl, hh]
        rfl
      · rw [hgl]
        rfl
    rw [hval] at hmem
    have : ((clips.get ⟨i, hi⟩).index,
        ((((clips.take i).filterMap (·.caption)).getLast?).getD
          (((clips.filterMap (·.caption)).head?).getD ""))) =
        (fun (p : Nat × Option String) => (p.1, p.2.getD "")) ((clips.get ⟨i, hi⟩).index,
          some ((((clips.take i).filterMap (·.caption)).getLast?).getD
            (((clips.filterMap (·.caption)).head?).getD ""))) := rfl
    rw [this]
    exact List.mem_map_of_mem _ hmem

/-- Counterexample for C3 as stated: on the fully masked one-clip video the
code does not return a result with `None`/absent outputs — building the
`Reconstructed` model fails (`dict[int, str]` rejects the `None` value) and
the exception propagates. -/
theorem C3_counterexample_all_masked :
    baselineReconstruct [⟨0, none⟩] = .error () := by rfl

/-- Witness for C3: instantiating the theorem on example A shows index 1 is
mapped to the nearest-preceding caption expression, whose value is `"A"`. -/
theorem C3_baseline_repeat_witness :
    ((((carryExampleA.take 1).filterMap (·.caption)).getLast?).getD
      (((carryExampleA.filterMap (·.caption)).head?).getD "") = "A") ∧
    ((1 : Nat),
      (((carryExampleA.take 1).filterMap (·.caption)).getLast?).getD
        (((carryExampleA.filterMap (·.caption)).head?).getD "")) ∈
      ((baselineReconstruct carryExampleA).toOption.getD []) :=
  ⟨by rfl,
    (C3_baseline_repeat carryExampleA (by decide)).2.2.2.2 1 (by decide) (by rfl)⟩

theorem foldl_dictInsert_append (pairs d : List (Nat × String))
    (h : ((d ++ pairs).map Prod.fst).Nodup) :
    pairs.foldl (fun d p => dictInsert d p.1 p.2) d = d ++ pairs := by
  induction pairs generalizing d with
  | nil => simp
  | cons p ps ih =>
    have hnotin : p.1 ∉ d.map Prod.fst := by
      intro hmem
      rw [List.map_append, List.nodup_append] at h
      exact h.2.2 hmem (by simp)
    have hins : dictInsert d p.1 p.2 = d ++ [p] := by
      rw [dictInsert, if_neg]
      intro hany
      rw [List.any_eq_true] at hany
      rcases hany with ⟨q, hq, hq1⟩
      exact hnotin (List.mem_map.mpr ⟨q, hq, by simpa using hq1⟩)
    rw [List.foldl_cons, hins, ih (d ++ [p]) (by simpa using h)]
    simp

theorem toDict_eq_self_of_nodup (pairs : List (Nat × String))
    (h : (pairs.map Prod.fst).Nodup) : toDict pairs = pairs := by
  simpa using foldl_dictInsert_append pairs [] (by simpa using h)

theorem dictInsert_ne_nil (d : List (Nat × String)) (k : Nat) (v : String) :
    dictInsert d k v ≠ [] := by
  rw [dictInsert]
  split
  · rcases d with _ | ⟨q, qs⟩
    · simp_all
    · simp
  · simp

theorem foldl_dictInsert_ne_nil (pairs d : List (Nat × String)) (h : d ≠ []) :
    pairs.foldl (fun d p => dictInsert d p.1 p.2) d ≠ [] := by
  induction pairs generalizing d with
  | nil => simpa
  | cons p ps ih => exact ih _ (dictInsert_ne_nil d p.1 p.2)

theorem toDict_ne_nil (pairs : List (Nat × String)) (h : pairs ≠ []) :
    toDict pairs ≠ [] := by
  rcases pairs with _ | ⟨p, ps⟩
  · simp_all
  · rw [toDict, List.foldl_cons]
    exact foldl_dictInsert_ne_nil ps _ (dictInsert_ne_nil [] p.1 p.2)

theorem dupIndices_eq_nil_iff (pairs : List (Nat × String)) :
    dupIndices pairs = [] ↔ (pairs.map Prod.fst).Nodup := by
  rw [dupIndices, List.filter_eq_nil_iff, List.nodup_iff_count_le_one]
  constructor
  · intro h a
    by_cases ha : a ∈ pairs.map Prod.fst
    · have := h a (List.mem_dedup.mpr ha)
      simpa using Nat.le_of_not_lt (by simpa using this)
    · simp [List.count_eq_zero_of_not_mem ha]
  · intro h a _
    simpa using Nat.not_lt.mpr (h a)

theorem mem_dupIndices_iff (pairs : List (Nat × String)) (i : Nat) :
    i ∈ dupIndices pairs ↔ i ∈ pairs.map Prod.fst ∧ 1 < (pairs.map Prod.fst).count i := by
  simp [dupIndices, List.mem_filter, List.mem_dedup]

theorem dictGet_eq_some_of_mem (pairs : List (Nat × String))
    (h : (pairs.map Prod.fst).Nodup) (k : Nat) (v : String) (hmem : (k, v) ∈ pairs) :
    dictGet pairs k = some v := by
  induction pairs with
  | nil => simp at hmem
  | cons q qs ih =>
    by_cases hq : q.1 = k
    · have : q = (k, v) := by
        rcases List.mem_cons.mp hmem with h1 | h1
        · exact h1.symm
        · exfalso
          have hk : k ∈ qs.map Prod.fst := List.mem_map.mpr ⟨(k, v), h1, rfl⟩
          rw [List.map_cons, List.nodup_cons] at h
          exact h.1 (hq ▸ hk)
      rw [dictGet, List.find?_cons_of_pos _ (by simpa using hq), this]
      rfl
    · have hmem' : (k, v) ∈ qs := by
        rcases List.mem_cons.mp hmem with h1 | h1
        · exact absurd (congrArg Prod.fst h1.symm) hq
        · exact h1
      rw [List.map_cons, List.nodup_cons] at h
      rw [dictGet, List.find?_cons_of_neg _ (by simpa using hq)]
      exact ih h.2 hmem'

theorem dictGet_eq_none_of_not_mem (pairs : List (Nat × String)) (k : Nat)
    (h : k ∉ pairs.map Prod.fst) : dictGet pairs k = none := by
  induction pairs with
  | nil => rfl
  | cons q qs ih =>
    rw [List.map_cons] at h
    have h1 : q.1 ≠ k := fun hc => h (by simp [hc])
    have h2 : k ∉ qs.map Prod.fst := fun hc => h (by simp [hc])
    rw [dictGet, List.find?_cons_of_neg _ (by simpa using h1)]
    exact ih h2

/-- The `failed` list carried by a reconcile-shaped `debug_data`. -/
def debugFailed : Option LLMDebug → List Nat
  | some (.reconcile _ failed _) => failed
  | _ => []

theorem reconcile_mem_failed (recon_caps : List (Nat × String)) (clips : List PyClip)
    (c : PyClip) (hc : c ∈ clips) (hm : c.caption = none)
    (hfalsy : dictGet recon_caps c.index = none ∨ dictGet recon_caps c.index = some "") :
    c.index ∈ (reconcile recon_caps clips).2.1 ∧
    (c.index, "") ∈ (reconcile recon_caps clips).2.2.2 := by
  induction clips with
  | nil => simp at hc
  | cons a cs ih =>
    rcases List.mem_cons.mp hc with rfl | hc'
    · rcases hfalsy with hget | hget
      · simp [reconcile, hm, hget]
      · simp [reconcile, hm, hget]
    · have ⟨h1, h2⟩ := ih hc'
      rcases ha : a.caption with _ | v
      · rcases hga : dictGet recon_caps a.index with _ | s
        · simp_all [reconcile, ha, hga]
        · by_cases hs : s = ""
          · subst hs; simp_all [reconcile, ha, hga]
          · simp_all [reconcile, ha, hga]
      · simp only [reconcile, ha]
        split
        · exact ⟨h1, h2⟩
        · exact ⟨h1, h2⟩

theorem reconcile_mem_ok (recon_caps : List (Nat × String)) (clips : List PyClip)
    (c : PyClip) (hc : c ∈ clips) (hm : c.caption = none)
    (s : String) (hget : dictGet recon_caps c.index = some s) (hs : s ≠ "") :
    c.index ∈ (reconcile recon_caps clips).1 ∧
    (c.index, s) ∈ (reconcile recon_caps clips).2.2.2 := by
  induction clips with
  | nil => simp at hc
  | cons a cs ih =>
    rcases List.mem_cons.mp hc with rfl | hc'
    · simp [reconcile, hm, hget, hs]
    · have ⟨h1, h2⟩ := ih hc'
      rcases ha : a.caption with _ | v
      · rcases hga : dictGet recon_caps a.index with _ | t
        · simp_all [reconcile, ha, hga]
        · by_cases ht : t = ""
          · subst ht; simp_all [reconcile, ha, hga]
          · simp_all [reconcile, ha, hga]
      · simp only [reconcile, ha]
        split
        · exact ⟨h1, h2⟩
        · exact ⟨h1, h2⟩

theorem llmReconstruct_eq_reconcile (clips : List PyClip) (pairs : List (Nat × String))
    (hnodup : (pairs.map Prod.fst).Nodup) (hne : pairs ≠ []) :
    llmReconstruct clips (some pairs) =
      (if (reconcile pairs clips).2.1 ≠ [] ∨ (reconcile pairs clips).2.2.1 ≠ [] then
        ⟨(reconcile pairs clips).2.2.2,
          some (.reconcile (reconcile pairs clips).1 (reconcile pairs clips).2.1
            (reconcile pairs clips).2.2.1)⟩
      else ⟨(reconcile pairs clips).2.2.2, none⟩) := by
  rw [llmReconstruct]
  simp only [toDict_eq_self_of_nodup pairs hnodup,
    (dupIndices_eq_nil_iff pairs).mpr hnodup]
  rw [if_neg hne]
  simp only [ne_eq, not_true_eq_false, if_false]

/-- C5: whenever the parsed response contains a duplicated index,
`LLMStrategy.reconstruct` returns a failure whose `reconstructed_captions`
mapping is empty and whose `debug_data.dups` lists exactly the indices
occurring more than once among the parsed pairs (the duplicate report is
spec-modelled, see `dupIndices`). -/
theorem C5_duplicate_indices_rejected (clips : List PyClip) (pairs : List (Nat × String))
    (hdup : ¬ (pairs.map Prod.fst).Nodup) :
    (llmReconstruct clips (some pairs)).reconstructed_captions = [] ∧
    (llmReconstruct clips (some pairs)).debug_data = some (.dupsFound (dupIndices pairs)) ∧
    dupIndices pairs ≠ [] ∧
    ∀ i, i ∈ dupIndices pairs ↔ i ∈ pairs.map Prod.fst ∧ 1 < (pairs.map Prod.fst).count i := by
  have hne : pairs ≠ [] := by rintro rfl; exact hdup (by simp)
  have hdups_ne : dupIndices pairs ≠ [] := fun h => hdup ((dupIndices_eq_nil_iff pairs).mp h)
  have hcaps : toDict pairs ≠ [] := toDict_ne_nil pairs hne
  have hres : llmReconstruct clips (some pairs) = ⟨[], some (.dupsFound (dupIndices pairs))⟩ := by
    rw [llmReconstruct]
    rw [if_neg hcaps, if_pos hdups_ne]
  exact ⟨by rw [hres], by rw [hres], hdups_ne, mem_dupIndices_iff pairs⟩

/-- Witness for C5: the response `[(0,"x"), (0,"y")]` on a one-clip masked
video is rejected with empty captions and `dups = [0]`. -/
theorem C5_duplicate_indices_rejected_witness :
    (llmReconstruct [⟨0, none⟩] (some [(0, "x"), (0, "y")])).reconstructed_captions = [] ∧
    (llmReconstruct [⟨0, none⟩] (some [(0, "x"), (0, "y")])).debug_data =
      some (.dupsFound [0]) := by
  have H := C5_duplicate_indices_rejected [⟨0, none⟩] [(0, "x"), (0, "y")] (by decide)
  exact ⟨H.1, H.2.1.trans (by decide)⟩

/-- C4: after a duplicate-free parse, a masked index absent from the
response is still emitted with an empty-string caption and recorded in
`debug_data.failed`, while a masked index present with a (non-empty)
caption is emitted with the oracle's caption; and the spec's concrete
instance — three masked indices, the response missing index 3 — yields
exactly `{1:x, 2:y, 3:""}` with `failed = [3]`. -/
theorem C4_missing_index_emitted_empty (clips : List PyClip) (pairs : List (Nat × String))
    (hnodup : (pairs.map Prod.fst).Nodup) (hne : pairs ≠ []) :
    llmReconstruct [⟨0, some "a"⟩, ⟨1, none⟩, ⟨2, none⟩, ⟨3, none⟩]
        (some [(1, "x"), (2, "y")]) =
      ⟨[(1, "x"), (2, "y"), (3, "")], some (.reconcile [1, 2] [3] [])⟩ ∧
    ∀ c ∈ clips, c.caption = none →
      (c.index ∉ pairs.map Prod.fst →
        (c.index, "") ∈ (llmReconstruct clips (some pairs)).reconstructed_captions ∧
        c.index ∈ debugFailed (llmReconstruct clips (some pairs)).debug_data) ∧
      (∀ s, (c.index, s) ∈ pairs → s ≠ "" →
        (c.index, s) ∈ (llmReconstruct clips (some pairs)).reconstructed_captions) := by
  refine ⟨by rfl, ?_⟩
  intro c hc hm
  have hE := llmReconstruct_eq_reconcile clips pairs hnodup hne
  constructor
  · intro habs
    have hget := dictGet_eq_none_of_not_mem pairs c.index habs
    have ⟨hf, hd⟩ := reconcile_mem_failed pairs clips c hc hm (Or.inl hget)
    have hfne : (reconcile pairs clips).2.1 ≠ [] := fun h => by simp [h] at hf
    rw [hE, if_pos (Or.inl hfne)]
    exact ⟨hd, hf⟩
  · intro s hsmem hs
    have hget := dictGet_eq_some_of_mem pairs hnodup c.index s hsmem
    have ⟨hok, hd⟩ := reconcile_mem_ok pairs clips c hc hm s hget hs
    rw [hE]
    split
    · exact hd
    · exact hd

/-- Witness for C4: in the three-masked-indices instance, index 3 is
emitted with the empty caption and listed in `failed`. -/
theorem C4_missing_index_emitted_empty_witness :
    ((3 : Nat), "") ∈ (llmReconstruct [⟨0, some "a"⟩, ⟨1, none⟩, ⟨2, none⟩, ⟨3, none⟩]
      (some [(1, "x"), (2, "y")])).reconstructed_captions ∧
    (3 : Nat) ∈ debugFailed (llmReconstruct [⟨0, some "a"⟩, ⟨1, none⟩, ⟨2, none⟩, ⟨3, none⟩]
      (some [(1, "x"), (2, "y")])).debug_data :=
  ((C4_missing_index_emitted_empty [⟨0, some "a"⟩, ⟨1, none⟩, ⟨2, none⟩, ⟨3, none⟩]
    [(1, "x"), (2, "y")] (by decide) (by decide)).2 ⟨3, none⟩ (by decide) rfl).1 (by decide)

/-- C10: a masked index whose response caption is the empty string is
classified exactly like an absent index — appended to `debug_data.failed`
and emitted with an empty-string caption — because the code tests the
truthiness of the looked-up caption, not key membership. -/
theorem C10_empty_caption_classified_failed (clips : List PyClip) (pairs : List (Nat × String))
    (hnodup : (pairs.map Prod.fst).Nodup) (hne : pairs ≠ []) :
    ∀ c ∈ clips, c.caption = none → (c.index, "") ∈ pairs →
      (c.index, "") ∈ (llmReconstruct clips (some pairs)).reconstructed_captions ∧
      c.index ∈ debugFailed (llmReconstruct clips (some pairs)).debug_data := by
  intro c hc hm hmem
  have hget := dictGet_eq_some_of_mem pairs hnodup c.index "" hmem
  have ⟨hf, hd⟩ := reconcile_mem_failed pairs clips c hc hm (Or.inr hget)
  have hfne : (reconcile pairs clips).2.1 ≠ [] := fun h => by simp [h] at hf
  rw [llmReconstruct_eq_reconcile clips pairs hnodup hne, if_pos (Or.inl hfne)]
  exact ⟨hd, hf⟩

/-- Witness for C10: index 0 answered with `""` is recorded as failed and
emitted with the empty caption. -/
theorem C10_empty_caption_classified_failed_witness :
    ((0 : Nat), "") ∈ (llmReconstruct [⟨0, none⟩, ⟨1, none⟩]
      (some [(0, ""), (1, "y")])).reconstructed_captions ∧
    (0 : Nat) ∈ debugFailed (llmReconstruct [⟨0, none⟩, ⟨1, none⟩]
      (some [(0, ""), (1, "y")])).debug_data :=
  C10_empty_caption_classified_failed [⟨0, none⟩, ⟨1, none⟩] [(0, ""), (1, "y")]
    (by decide) (by decide) ⟨0, none⟩ (by decide) rfl (by decide)

theorem runVideos_cons_skip (v : VideoInput) (rest : List VideoInput) (e : RunnerLog)
    (h : processVideo v = .ok (e, none)) :
    runVideos (v :: rest) = (runVideos rest).map (fun p => (e :: p.1, p.2)) := by
  rw [runVideos, h]
  rcases hrest : runVideos rest with err | ⟨logs, ms⟩
  · rfl
  · rfl

theorem runVideos_cons_fatal (v : VideoInput) (rest : List VideoInput)
    (h : processVideo v = .error ()) :
    runVideos (v :: rest) = .error () := by
  rw [runVideos, h]

theorem processVideo_fatal (v : VideoInput) (r : RunnerRecon)
    (hmask : v.maskIndices ≠ ∅) (hr : v.recon = some r) (hk : r.clipKeys ≠ ∅)
    (hmm : r.clipKeys ≠ v.maskIndices) (hd : r.debug_data = none) :
    processVideo v = .error () := by
  simp only [processVideo, hr, if_neg hmask]
  rw [if_neg hk, if_pos ⟨hmm, hd⟩]

theorem processVideo_skipFail_none (v : VideoInput)
    (hmask : v.maskIndices ≠ ∅) (hr : v.recon = none) :
    processVideo v = .ok (.skipFail, none) := by
  simp only [processVideo, hr, if_neg hmask]

theorem processVideo_skipFail_empty (v : VideoInput) (r : RunnerRecon)
    (hmask : v.maskIndices ≠ ∅) (hr : v.recon = some r) (hk : r.clipKeys = ∅) :
    processVideo v = .ok (.skipFail, none) := by
  simp only [processVideo, hr, if_neg hmask]
  rw [if_pos hk]

theorem processVideo_skipFailedPositive (v : VideoInput) (r : RunnerRecon) (d : List Nat)
    (hmask : v.maskIndices ≠ ∅) (hr : v.recon = some r) (hk : r.clipKeys ≠ ∅)
    (hd : r.debug_data = some d) (hdne : d ≠ []) :
    processVideo v = .ok (.skipFailedPositive, none) := by
  simp only [processVideo, hr, if_neg hmask]
  rw [if_neg hk, if_neg (by rintro ⟨-, h2⟩; rw [hd] at h2; exact Option.noConfusion h2),
    if_pos (by rw [hd]; simpa using hdne)]

theorem processVideo_skipBadIndices (v : VideoInput) (r : RunnerRecon) (d : List Nat)
    (hmask : v.maskIndices ≠ ∅) (hr : v.recon = some r) (hk : r.clipKeys ≠ ∅)
    (hmm : r.clipKeys ≠ v.maskIndices) (hd : r.debug_data = some d) (hdnil : d = []) :
    processVideo v = .ok (.skipBadIndices v.maskIndices, none) := by
  simp only [processVideo, hr, if_neg hmask]
  rw [if_neg hk, if_neg (by rintro ⟨-, h2⟩; rw [hd] at h2; exact Option.noConfusion h2),
    if_neg (by rw [hd, hdnil]; simp), if_pos hmm]

/-- C2 (amended): per-video failure handling in `ExperimentRunner.run`.
For a video with a non-empty mask: a reconstruction whose *non-empty* key
set differs from the mask set with no `debug_data` raises and aborts the
whole batch; the same mismatch with `debug_data` present is downgraded to a
skip (either the `failed>0` skip or the bad-indices skip), the entry is
recorded, the video contributes no metrics, and the batch continues; and
the other per-video reconstruction failures (falsy result, empty caption
mapping, `debug_data['failed']` non-empty) are likewise recorded as skips,
excluded from the accumulated metrics, and never abort the batch.  Results
whose key set is *empty* are caught by the emptiness check before the fatal
mismatch check — that is the correction to the claim. -/
theorem C2_runner_failure_isolation (v : VideoInput) (rest : List VideoInput)
    (hmask : v.maskIndices ≠ ∅) :
    (∀ r, v.recon = some r → r.clipKeys ≠ ∅ → r.clipKeys ≠ v.maskIndices →
      r.debug_data = none → runVideos (v :: rest) = .error ()) ∧
    (∀ r d, v.recon = some r → r.clipKeys ≠ ∅ → r.clipKeys ≠ v.maskIndices →
      r.debug_data = some d →
      ∃ entry, (entry = RunnerLog.skipFailedPositive ∨
          entry = RunnerLog.skipBadIndices v.maskIndices) ∧
        processVideo v = .ok (entry, none) ∧
        runVideos (v :: rest) = (runVideos rest).map (fun p => (entry :: p.1, p.2))) ∧
    (v.recon = none →
      runVideos (v :: rest) =
        (runVideos rest).map (fun p => (RunnerLog.skipFail :: p.1, p.2))) ∧
    (∀ r, v.recon = some r → r.clipKeys = ∅ →
      runVideos (v :: rest) =
        (runVideos rest).map (fun p => (RunnerLog.skipFail :: p.1, p.2))) ∧
    (∀ r d, v.recon = some r → r.clipKeys ≠ ∅ → r.debug_data = some d → d ≠ [] →
      runVideos (v :: rest) =
        (runVideos rest).map (fun p => (RunnerLog.skipFailedPositive :: p.1, p.2))) := by
  refine ⟨?_, ?_, ?_, ?_, ?_⟩
  · intro r hr hk hmm hd
    exact runVideos_cons_fatal v rest (processVideo_fatal v r hmask hr hk hmm hd)
  · intro r d hr hk hmm hd
    by_cases hdne : d = []
    · exact ⟨RunnerLog.skipBadIndices v.maskIndices, Or.inr rfl,
        processVideo_skipBadIndices v r d hmask hr hk hmm hd hdne,
        runVideos_cons_skip v rest _ (processVideo_skipBadIndices v r d hmask hr hk hmm hd hdne)⟩
    · exact ⟨RunnerLog.skipFailedPositive, Or.inl rfl,
        processVideo_skipFailedPositive v r d hmask hr hk hd hdne,
        runVideos_cons_skip v rest _ (processVideo_skipFailedPositive v r d hmask hr hk hd hdne)⟩
  · intro hr
    exact runVideos_cons_skip v rest _ (processVideo_skipFail_none v hmask hr)
  · intro r hr hk
    exact runVideos_cons_skip v rest _ (processVideo_skipFail_empty v r hmask hr hk)
  · intro r d hr hk hd hdne
    exact runVideos_cons_skip v rest _ (processVideo_skipFailedPositive v r d hmask hr hk hd hdne)

/-- Counterexample for C2 as stated: a result whose key set is empty (hence
different from the requested mask `{0}`) and which carries no `debug_data`
does not make the run raise — the batch completes, recording the video as a
skip, because the emptiness check fires before the fatal mismatch check. -/
theorem C2_counterexample_empty_keys_no_raise :
    (RunnerRecon.mk ∅ none).clipKeys ≠ ({0} : Finset Nat) ∧
    (RunnerRecon.mk ∅ none).debug_data = none ∧
    runnerRun [⟨{0}, some ⟨∅, none⟩, ⟨[], [], []⟩⟩] =
      .ok ([RunnerLog.skipFail], [], none) := by
  refine ⟨by decide, rfl, rfl⟩

/-- Witness for C2: a non-empty mismatching key set with no debug data
aborts the batch, and a `failed`-flagged result is skipped while the batch
continues. -/
theorem C2_runner_failure_isolation_witness :
    runVideos [⟨{0}, some ⟨{1}, none⟩, ⟨[], [], []⟩⟩] = .error () ∧
    runVideos [⟨{0}, some ⟨{1}, some [5]⟩, ⟨[], [], []⟩⟩] =
      (runVideos []).map (fun p => (RunnerLog.skipFailedPositive :: p.1, p.2)) := by
  constructor
  · exact (C2_runner_failure_isolation ⟨{0}, some ⟨{1}, none⟩, ⟨[], [], []⟩⟩ []
      (by decide)).1 ⟨{1}, none⟩ rfl (by decide) (by decide) rfl
  · exact (C2_runner_failure_isolation ⟨{0}, some ⟨{1}, some [5]⟩, ⟨[], [], []⟩⟩ []
      (by decide)).2.2.2.2 ⟨{1}, some [5]⟩ [5] rfl (by decide) rfl (by decide)

theorem pyMin_eq_min? (l : List ℚ) : pyMin l = (l.min?).getD 0 := by
  cases l with
  | nil => rfl
  | cons x xs => rw [pyMin, List.min?]; rfl

theorem runVideos_ok_metrics (videos : List VideoInput) (logs : List RunnerLog)
    (ms : List RunnerMetrics) (h : runVideos videos = .ok (logs, ms)) :
    ms = videos.filterMap (fun v => ((processVideo v).toOption.map Prod.snd).join) := by
  induction videos generalizing logs ms with
  | nil =>
    simp only [runVideos, Except.ok.injEq, Prod.mk.injEq] at h
    simp [← h.2]
  | cons v vs ih =>
    rw [runVideos] at h
    rcases hp : processVideo v with e | ⟨entry, m⟩
    · rw [hp] at h
      exact absurd h (by simp)
    · rw [hp] at h
      rcases hrest : runVideos vs with e2 | ⟨logs2, ms2⟩
      · rw [hrest] at h
        exact absurd h (by simp)
      · rw [hrest] at h
        simp only [Except.ok.injEq, Prod.mk.injEq] at h
        have hms : ms = m.toList ++ ms2 := h.2.symm
        rw [List.filterMap_cons]
        have hms2 := ih logs2 ms2 hrest
        rcases m with _ | mm
        · simp only [hp, Except.toOption, Option.map_some, Option.join]
          simpa [hms] using hms2
        · simp only [hp, Except.toOption, Option.map_some, Option.join]
          rw [hms, hms2]
          rfl

/-- The scored-video metrics of the spec's aggregation example. -/
def exMetricsA : RunnerMetrics :=
  ⟨[9/10, 8/10], [9/10, 8/10], [9/10, 8/10]⟩

def exMetricsB : RunnerMetrics :=
  ⟨[19/20], [19/20], [19/20]⟩

def exVideoA : VideoInput := ⟨{0}, some ⟨{0}, none⟩, exMetricsA⟩

def exVideoB : VideoInput := ⟨{0}, some ⟨{0}, none⟩, exMetricsB⟩

/-- C6: the batch-level means are the arithmetic means, over the
successfully scored videos, of each video's minimum per-clip score; and on
the spec's example — two scored videos with per-clip F1 `[0.9, 0.8]` and
`[0.95]` — the mean F1 is `0.875`. -/
theorem C6_batch_mean_of_minima (videos : List VideoInput) (logs : List RunnerLog)
    (ms : List RunnerMetrics) (agg : Option AggMetrics)
    (h : runnerRun videos = .ok (logs, ms, agg)) :
    (ms = videos.filterMap (fun v => ((processVideo v).toOption.map Prod.snd).join)) ∧
    (ms ≠ [] → agg = some {
        num_of_instances := ms.length
        mean_f1_score := (ms.map (fun m => (m.bs_f1.min?).getD 0)).sum / ms.length
        mean_precision := (ms.map (fun m => (m.bs_p.min?).getD 0)).sum / ms.length
        mean_recall := (ms.map (fun m => (m.bs_r.min?).getD 0)).sum / ms.length }) ∧
    (runnerRun [exVideoA, exVideoB] =
      .ok ([.scored exMetricsA, .scored exMetricsB], [exMetricsA, exMetricsB],
        aggregateMetrics [exMetricsA, exMetricsB])) ∧
    ((aggregateMetrics [exMetricsA, exMetricsB]).map (fun a => a.mean_f1_score) =
      some (7/8)) := by
  obtain ⟨hrv, hagg⟩ : runVideos videos = .ok (logs, ms) ∧ agg = aggregateMetrics ms := by
    rw [runnerRun] at h
    rcases hrest : runVideos videos with e | ⟨logs2, ms2⟩
    · rw [hrest] at h
      exact absurd h (by simp)
    · rw [hrest] at h
      simp only [Except.ok.injEq, Prod.mk.injEq] at h
      obtain ⟨h1, h2, h3⟩ := h
      subst h1
      subst h2
      exact ⟨rfl, h3.symm⟩
  refine ⟨runVideos_ok_metrics videos logs ms hrv, ?_, by rfl, ?_⟩
  · intro hne
    rw [hagg, aggregateMetrics, if_neg hne]
    simp only [Option.some.injEq, AggMetrics.mk.injEq]
    refine ⟨trivial, ?_, ?_, ?_⟩
    · simp [pyMean, pyMin_eq_min?]
    · simp [pyMean, pyMin_eq_min?]
    · simp [pyMean, pyMin_eq_min?]
  · rw [aggregateMetrics, if_neg (by simp)]
    show some (pyMean [pyMin exMetricsA.bs_f1, pyMin exMetricsB.bs_f1]) = some (7/8)
    refine congrArg some ?_
    rw [show pyMin exMetricsA.bs_f1 = 8/10 from by
        rw [exMetricsA, pyMin]
        norm_num,
      show pyMin exMetricsB.bs_f1 = 19/20 from rfl]
    rw [pyMean]
    norm_num



/-- Witness for C6: the theorem applied to the concrete two-video batch. -/
theorem C6_batch_mean_of_minima_witness :
    (aggregateMetrics [exMetricsA, exMetricsB]).map (fun a => a.mean_f1_score) =
      some (7/8) :=
  (C6_batch_mean_of_minima [exVideoA, exVideoB]
    [.scored exMetricsA, .scored exMetricsB] [exMetricsA, exMetricsB]
    (aggregateMetrics [exMetricsA, exMetricsB]) (by rfl)).2.2.2

/-- Start position of block `i` in the partition of `[0, n)` into `p`
nearly-equal blocks: each earlier block contributes `n / p` elements plus
one extra for the first `n % p` blocks. -/
def blockStart (p n i : Nat) : Nat := i * (n / p) + min i (n % p)

/-- Size of block `i`. -/
def blockSize (p n i : Nat) : Nat := if i < n % p then n / p + 1 else n / p

theorem blockStart_succ (p n i : Nat) :
    blockStart p n (i + 1) = blockStart p n i + blockSize p n i := by
  by_cases h : i < n % p
  · have h1 : min i (n % p) = i := Nat.min_eq_left (Nat.le_of_lt h)
    have h2 : min (i + 1) (n % p) = i + 1 := Nat.min_eq_left h
    simp [blockStart, blockSize, h, h1, h2]
    ring
  · have h1 : min i (n % p) = n % p := Nat.min_eq_right (Nat.le_of_not_lt h)
    have h2 : min (i + 1) (n % p) = n % p :=
      Nat.min_eq_right (Nat.le_succ_of_le (Nat.le_of_not_lt h))
    simp [blockStart, blockSize, h, h1, h2]
    ring

theorem blockStart_mono (p n : Nat) {i j : Nat} (h : i ≤ j) :
    blockStart p n i ≤ blockStart p n j := by
  induction j with
  | zero => simp [Nat.le_zero.mp h]
  | succ k ih =>
    rcases Nat.lt_succ_iff_lt_or_eq.mp (Nat.lt_succ_of_le h) with h1 | h1
    · calc blockStart p n i ≤ blockStart p n k := ih (Nat.lt_succ_iff.mp h1)
        _ ≤ blockStart p n (k + 1) := by rw [blockStart_succ]; exact Nat.le_add_right _ _
    · subst h1; exact Nat.le_refl _

theorem buildPartitions_fold (p base_size remainder : Nat) :
    (List.range p).foldl
      (fun (st : List (List Nat) × Nat) i =>
        let part_size := if i < remainder then base_size + 1 else base_size
        (st.1 ++ [List.range' st.2 part_size], st.2 + part_size))
      ([], 0) =
    ((List.range p).map (fun i =>
        List.range' (i * base_size + min i remainder)
          (if i < remainder then base_size + 1 else base_size)),
      p * base_size + min p remainder) := by
  induction p with
  | zero => simp
  | succ q ih =>
    rw [List.range_succ, List.foldl_append, ih, List.map_append]
    simp only [List.foldl_cons, List.foldl_nil, List.map_cons, List.map_nil, Prod.mk.injEq]
    refine ⟨trivial, ?_⟩
    by_cases h : q < remainder
    · have h1 : min q remainder = q := Nat.min_eq_left (Nat.le_of_lt h)
      have h2 : min (q + 1) remainder = q + 1 := Nat.min_eq_left h
      simp [h, h1, h2]
      ring
    · have h1 : min q remainder = remainder := Nat.min_eq_right (Nat.le_of_not_lt h)
      have h2 : min (q + 1) remainder = remainder :=
        Nat.min_eq_right (Nat.le_succ_of_le (Nat.le_of_not_lt h))
      simp [h, h1, h2]
      ring

theorem buildPartitions_eq (p base_size remainder : Nat) :
    buildPartitions p base_size remainder =
      (List.range p).map (fun i =>
        List.range' (i * base_size + min i remainder)
          (if i < remainder then base_size + 1 else base_size)) := by
  rw [buildPartitions, buildPartitions_fold]

theorem buildPartitions_length (p base_size remainder : Nat) :
    (buildPartitions p base_size remainder).length = p := by
  rw [buildPartitions_eq]
  simp

theorem buildPartitions_getD (p base_size remainder i : Nat) (hi : i < p) :
    (buildPartitions p base_size remainder).getD i [] =
      List.range' (i * base_size + min i remainder)
        (if i < remainder then base_size + 1 else base_size) := by
  rw [buildPartitions_eq]
  rw [List.getD_eq_getElem?_getD, List.getElem?_map, List.getElem?_range hi]
  rfl

theorem buildPartitions_getD_of_ge (p base_size remainder i : Nat) (hi : p ≤ i) :
    (buildPartitions p base_size remainder).getD i [] = [] := by
  rw [List.getD_eq_getElem?_getD, List.getElem?_eq_none]
  · rfl
  · rw [buildPartitions_length]
    exact hi

theorem maskFold_eq (parts : List (List Nat)) (a count : Nat) (s0 : Finset Nat) :
    (List.range' a count).foldl
      (fun s i => if i < parts.length then s ∪ (parts.getD i []).toFinset else s) s0 =
    s0 ∪ (Finset.Ico a (a + count)).biUnion (fun i => (parts.getD i []).toFinset) := by
  induction count generalizing a s0 with
  | zero => simp
  | succ c ih =>
    rw [List.range'_succ, List.foldl_cons]
    have hstep : (if a < parts.length then s0 ∪ (parts.getD a []).toFinset else s0) =
        s0 ∪ (parts.getD a []).toFinset := by
      split
      · rfl
      · rename_i h
        rw [List.getD_eq_getElem?_getD, List.getElem?_eq_none (by omega)]
        simp
    rw [hstep, ih]
    ext x
    simp only [Finset.mem_union, Finset.mem_biUnion, Finset.mem_Ico]
    constructor
    · rintro ((hx | hx) | ⟨i, ⟨hi1, hi2⟩, hx⟩)
      · exact Or.inl hx
      · exact Or.inr ⟨a, ⟨Nat.le_refl a, by omega⟩, hx⟩
      · exact Or.inr ⟨i, ⟨by omega, by omega⟩, hx⟩
    · rintro (hx | ⟨i, ⟨hi1, hi2⟩, hx⟩)
      · exact Or.inl (Or.inl hx)
      · rcases Nat.eq_or_lt_of_le hi1 with rfl | hlt
        · exact Or.inl (Or.inr hx)
        · exact Or.inr ⟨i, ⟨by omega, by omega⟩, hx⟩

theorem toFinset_range' (a n : Nat) :
    (List.range' a n).toFinset = Finset.Ico a (a + n) := by
  ext x
  simp [List.mem_range'_1, Finset.mem_Ico]

theorem biUnion_consecutive_blocks (p n lo hi : Nat) (h : lo ≤ hi) :
    (Finset.Ico lo hi).biUnion
      (fun i => Finset.Ico (blockStart p n i) (blockStart p n (i + 1))) =
    Finset.Ico (blockStart p n lo) (blockStart p n hi) := by
  obtain ⟨c, rfl⟩ := Nat.exists_eq_add_of_le h
  clear h
  induction c with
  | zero => simp
  | succ k ih =>
    have hsp : lo + (k + 1) = (lo + k) + 1 := rfl
    rw [hsp, Nat.Ico_succ_right_eq_insert_Ico (Nat.le_add_right lo k),
      Finset.biUnion_insert, ih, Finset.union_comm,
      Finset.Ico_union_Ico_eq_Ico (blockStart_mono p n (Nat.le_add_right lo k))
        (blockStart_mono p n (Nat.le_succ (lo + k)))]

/-- C7: for `num_partitions ≤ num_clips` (and at least one partition), the
sequence `[0, num_clips)` is divided into `num_partitions` contiguous
blocks — block `i` is `range' (blockStart i) (blockSize i)`, where the
first `num_clips % num_partitions` blocks have one extra element, the
blocks are consecutive, start at 0 and end at `num_clips` — and the
returned index set is exactly the union of the positions of the
`num_parts_to_mask` consecutive blocks starting at `start_partition`
(blocks past the last one contributing nothing), which is a contiguous
range of indices. -/
theorem C7_partition_block_union (p start count n : Nat) (hp : 0 < p) (hpn : p ≤ n) :
    (buildPartitions p (n / p) (n % p)).length = p ∧
    blockStart p n 0 = 0 ∧
    blockStart p n p = n ∧
    (∀ i, blockStart p n (i + 1) = blockStart p n i + blockSize p n i) ∧
    (∀ i, i < p → (buildPartitions p (n / p) (n % p)).getD i [] =
      List.range' (blockStart p n i) (blockSize p n i)) ∧
    partitionGetIndicesToMask p start count n =
      (Finset.Ico start (start + count)).biUnion
        (fun i => ((buildPartitions p (n / p) (n % p)).getD i []).toFinset) ∧
    partitionGetIndicesToMask p start count n =
      Finset.Ico (blockStart p n (min start p)) (blockStart p n (min (start + count) p)) := by
  have hb0 : blockStart p n 0 = 0 := by simp [blockStart]
  have hbp : blockStart p n p = n := by
    have h1 : min p (n % p) = n % p := Nat.min_eq_right (Nat.le_of_lt (Nat.mod_lt n hp))
    rw [blockStart, h1]
    exact Nat.div_add_mod n p
  have hnot : ¬ (p > n) := by omega
  have hmask : partitionGetIndicesToMask p start count n =
      (Finset.Ico start (start + count)).biUnion
        (fun i => ((buildPartitions p (n / p) (n % p)).getD i []).toFinset) := by
    rw [partitionGetIndicesToMask, if_neg hnot]
    rw [maskFold_eq]
    simp
  refine ⟨buildPartitions_length p (n / p) (n % p), hb0, hbp, blockStart_succ p n, ?_,
    hmask, ?_⟩
  · intro i hi
    rw [buildPartitions_getD p (n / p) (n % p) i hi]
    rfl
  · rw [hmask]
    have hB : ∀ i, ((buildPartitions p (n / p) (n % p)).getD i []).toFinset =
        if i < p then Finset.Ico (blockStart p n i) (blockStart p n (i + 1)) else ∅ := by
      intro i
      by_cases hi : i < p
      · rw [buildPartitions_getD p (n / p) (n % p) i hi, toFinset_range', if_pos hi,
          blockStart_succ]
        rfl
      · rw [buildPartitions_getD_of_ge p (n / p) (n % p) i (Nat.le_of_not_lt hi), if_neg hi]
        rfl
    have hclamp : (Finset.Ico start (start + count)).biUnion
        (fun i => ((buildPartitions p (n / p) (n % p)).getD i []).toFinset) =
        (Finset.Ico (min start p) (min (start + count) p)).biUnion
          (fun i => Finset.Ico (blockStart p n i) (blockStart p n (i + 1))) := by
      ext x
      simp only [Finset.mem_biUnion, Finset.mem_Ico, hB]
      constructor
      · rintro ⟨i, ⟨h1, h2⟩, hx⟩
        by_cases hip : i < p
        · rw [if_pos hip] at hx
          exact ⟨i, ⟨by omega, by omega⟩, Finset.mem_Ico.mp hx⟩
        · rw [if_neg hip] at hx
          exact absurd hx (Finset.not_mem_empty x)
      · rintro ⟨i, ⟨h1, h2⟩, hx⟩
        have hip : i < p := by omega
        exact ⟨i, ⟨by omega, by omega⟩, by rw [if_pos hip]; exact Finset.mem_Ico.mpr hx⟩
    rw [hclamp, biUnion_consecutive_blocks p n _ _
      (min_le_min (Nat.le_add_right start count) (Nat.le_refl p))]

/-- Witness for C7: `Partition(5, start 1, 1 block)` on 10 clips masks the
contiguous range `{2, 3}`, the union of the single block number 1. -/
theorem C7_partition_block_union_witness :
    partitionGetIndicesToMask 5 1 1 10 =
      Finset.Ico (blockStart 5 10 (min 1 5)) (blockStart 5 10 (min (1 + 1) 5)) ∧
    partitionGetIndicesToMask 5 1 1 10 = {2, 3} :=
  ⟨(C7_partition_block_union 5 1 1 10 (by decide) (by decide)).2.2.2.2.2.2, by decide⟩

/-! ## Random masking (src/masking.py:51-63)

`RandomMasking._get_indices_to_mask` computes
`set(self.prn.sample(range(num_clips), k=int(num_clips * self.ratio)))`
where `self.prn` is a CPython `random.Random` — a Mersenne Twister
(MT19937) seeded once at construction.  The generator and `sample` are
embedded bit-exactly from CPython (`_randommodule.c`, `random.py`): 624
words of 32-bit state plus an output index; `random.Random(seed)` runs
`init_genrand(19650218)` followed by `init_by_array` over the seed's
32-bit little-endian chunks; `getrandbits` tempers successive words;
`_randbelow` rejection-samples `bit_length(n)`-bit values; `sample` uses
the partial-Fisher-Yates pool algorithm for small populations and the
rejection-set algorithm for large ones.  The rejection loops carry fuel:
`none` models a computation that has not terminated within the fuel (and
the `ValueError` raised when the sample is larger than the population). -/

def M32 : Nat := 4294967296

structure MTState where
  mt : List Nat
  mti : Nat
  deriving DecidableEq

/-- One step of `init_genrand`: append the next mixed word. -/
def igStep (a : List Nat) (i : Nat) : List Nat :=
  let prev := a.getD i 0
  a ++ [(1812433253 * (prev ^^^ (prev >>> 30)) + (i + 1)) % M32]

/-- `init_genrand` (reference MT19937): the base state for a 32-bit seed. -/
def initGenrand (s : Nat) : List Nat :=
  (List.range 623).foldl igStep [s % M32]

/-- The seed integer split into 32-bit little-endian chunks (`[0]` for 0),
as CPython's `random_seed` prepares the `init_by_array` key. -/
def toKeyAux : Nat → Nat → List Nat
  | 0, _ => []
  | fuel + 1, n => if n = 0 then [] else (n % M32) :: toKeyAux fuel (n / M32)

def toKey (n : Nat) : List Nat :=
  if n = 0 then [0] else toKeyAux n n

/-- One step of the first mixing loop of `init_by_array`. -/
def ibaStep1 (key : List Nat) (st : List Nat × Nat × Nat) (_ : Nat) : List Nat × Nat × Nat :=
  let mt := st.1
  let i := st.2.1
  let j := st.2.2
  let prev := mt.getD (i - 1) 0
  let v := ((mt.getD i 0 ^^^ (((prev ^^^ (prev >>> 30)) * 1664525) % M32)) + key.getD j 0 + j) % M32
  let mt1 := mt.set i v
  let i1 := i + 1
  let j1 := j + 1
  let p := if i1 ≥ 624 then (mt1.set 0 (mt1.getD 623 0), 1) else (mt1, i1)
  let j2 := if j1 ≥ key.length then 0 else j1
  (p.1, p.2, j2)

/-- One step of the second mixing loop of `init_by_array`. -/
def ibaStep2 (st : List Nat × Nat) (_ : Nat) : List Nat × Nat :=
  let mt := st.1
  let i := st.2
  let prev := mt.getD (i - 1) 0
  let v := ((mt.getD i 0 ^^^ (((prev ^^^ (prev >>> 30)) * 1566083941) % M32)) + (M32 - i % M32)) % M32
  let mt1 := mt.set i v
  let i1 := i + 1
  let p := if i1 ≥ 624 then (mt1.set 0 (mt1.getD 623 0), 1) else (mt1, i1)
  (p.1, p.2)

/-- The first mixing loop of `init_by_array`: `max(624, key length)`
iterations. -/
def ibaPhase1 (key mt0 : List Nat) : List Nat × Nat × Nat :=
  (List.range (max 624 key.length)).foldl (ibaStep1 key) (mt0, 1, 0)

/-- The second mixing loop of `init_by_array`: 623 iterations. -/
def ibaPhase2 (mt1 : List Nat) (i1 : Nat) : List Nat × Nat :=
  (List.range 623).foldl ibaStep2 (mt1, i1)

/-- `random.Random(seed)` for a non-negative integer seed: `init_by_array`
over the seed's 32-bit chunks, leaving the output index at 624 so the
first draw triggers a twist. -/
def seedMT (seed : Nat) : MTState :=
  let key := toKey seed
  let p := ibaPhase1 key (initGenrand 19650218)
  let q := ibaPhase2 p.1 p.2.1
  ⟨q.1.set 0 2147483648, 624⟩

/-- One step of the MT19937 state twist (in-place, sequential). -/
def twistStep (mt : List Nat) (kk : Nat) : List Nat :=
  let y := (mt.getD kk 0 &&& 2147483648) ||| (mt.getD ((kk + 1) % 624) 0 &&& 2147483647)
  let v := mt.getD ((kk + 397) % 624) 0 ^^^ (y >>> 1) ^^^ (if y % 2 = 1 then 2567483615 else 0)
  mt.set kk v

def twist (mt : List Nat) : List Nat :=
  (List.range 624).foldl twistStep mt

/-- `genrand_uint32`: twist if the index is exhausted, then temper and
emit the next word. -/
def genrand (s : MTState) : Nat × MTState :=
  let s := if s.mti ≥ 624 then MTState.mk (twist s.mt) 0 else s
  let y := s.mt.getD s.mti 0
  let y := y ^^^ (y >>> 11)
  let y := y ^^^ ((y <<< 7) &&& 2636928640)
  let y := y ^^^ ((y <<< 15) &&& 4022730752)
  let y := y ^^^ (y >>> 18)
  (y, MTState.mk s.mt (s.mti + 1))

/-- `getrandbits(k)` assembled from 32-bit words, little-endian, the last
word keeping only its top `k mod 32` bits. -/
def grbAux : Nat → Nat → MTState → Nat × MTState
  | 0, _, s => (0, s)
  | w + 1, k, s =>
    let (r, s) := genrand s
    let r := if k < 32 then r >>> (32 - k) else r
    let (rest, s) := grbAux w (k - 32) s
    (r + rest * M32, s)

def getrandbits (s : MTState) (k : Nat) : Nat × MTState :=
  grbAux ((k - 1) / 32 + 1) k s

/-- `int.bit_length`, by fuelled halving (`n` halvings always suffice). -/
def bitLenAux : Nat → Nat → Nat
  | 0, _ => 0
  | fuel + 1, n => if n = 0 then 0 else bitLenAux fuel (n / 2) + 1

def pyBitLength (n : Nat) : Nat :=
  bitLenAux n n

/-- The rejection loop of `_randbelow_with_getrandbits`. -/
def randbelowLoop : Nat → Nat → Nat → MTState → Option (Nat × MTState)
  | 0, _, _, _ => none
  | fuel + 1, k, n, s =>
    let (r, s) := getrandbits s k
    if r < n then some (r, s) else randbelowLoop fuel k n s

def randbelow (fuel n : Nat) (s : MTState) : Option (Nat × MTState) :=
  if n = 0 then some (0, s)
  else randbelowLoop fuel (pyBitLength n) n s

/-- The pool (partial Fisher-Yates) branch of `random.sample`: pick a
position below the live size, emit the value there, move the last live
value into the hole, shrink. -/
def poolLoop (fuel : Nat) : Nat → Nat → List Nat → MTState → Option (List Nat × MTState)
  | 0, _, _, s => some ([], s)
  | c + 1, m, pool, s =>
    match randbelow fuel m s with
    | none => none
    | some (j, s) =>
      let x := pool.getD j 0
      let pool := pool.set j (pool.getD (m - 1) 0)
      match poolLoop fuel c (m - 1) pool s with
      | none => none
      | some (rest, s) => some (x :: rest, s)

/-- The inner `while j in selected` rejection of the selection-set branch. -/
def selPick : Nat → Nat → Nat → List Nat → MTState → Option (Nat × MTState)
  | 0, _, _, _, _ => none
  | fuel + 1, rfuel, n, selected, s =>
    match randbelow rfuel n s with
    | none => none
    | some (j, s) =>
      if j ∈ selected then selPick fuel rfuel n selected s else some (j, s)

/-- The selection-set branch of `random.sample`. -/
def selLoop (fuel n : Nat) : Nat → List Nat → MTState → Option (List Nat × MTState)
  | 0, _, s => some ([], s)
  | c + 1, selected, s =>
    match selPick fuel fuel n selected s with
    | none => none
    | some (j, s) =>
      match selLoop fuel n c (j :: selected) s with
      | none => none
      | some (rest, s) => some (j :: rest, s)

/-- `ceil(log(m, 4))` for positive `m`, as the least `e` with `m ≤ 4 ^ e`. -/
def clog4Aux : Nat → Nat → Nat
  | 0, _ => 0
  | fuel + 1, m => if m ≤ 1 then 0 else 1 + clog4Aux fuel ((m + 3) / 4)

def ceilLog4 (m : Nat) : Nat := clog4Aux m m

/-- The `setsize` table-size heuristic of `random.sample`. -/
def sampleSetsize (k : Nat) : Nat :=
  21 + (if k > 5 then 4 ^ ceilLog4 (3 * k) else 0)

/-- `random.Random.sample(range(n), k)`: `none` models the `ValueError`
for `k > n` or fuel exhaustion in a rejection loop. -/
def pySample (fuel : Nat) (s : MTState) (n k : Nat) : Option (List Nat × MTState) :=
  if k ≤ n then
    if n ≤ sampleSetsize k then poolLoop fuel k n (List.range n) s
    else selLoop fuel n k [] s
  else none

/-- `RandomMasking._get_indices_to_mask` (src/masking.py:58-60) with the
strategy's generator state passed explicitly: `int(num_clips * ratio)`
indices sampled without replacement, as a set, together with the advanced
generator state.  The float ratio is idealised as an exact rational. -/
def randomMaskIndices (fuel : Nat) (r : ℚ) (s : MTState) (num_clips : Nat) :
    Option (Finset Nat × MTState) :=
  let num_to_mask := (⌊(num_clips : ℚ) * r⌋).toNat
  (pySample fuel s num_clips num_to_mask).map (fun pr => (pr.1.toFinset, pr.2))

theorem randbelowLoop_lt (fuel k n : Nat) (s : MTState) (r : Nat) (s' : MTState)
    (h : randbelowLoop fuel k n s = some (r, s')) : r < n := by
  induction fuel generalizing s with
  | zero => simp [randbelowLoop] at h
  | succ f ih =>
    simp only [randbelowLoop] at h
    rcases hgr : getrandbits s k with ⟨r1, s1⟩
    rw [hgr] at h
    by_cases hlt : r1 < n
    · rw [if_pos hlt] at h
      obtain ⟨h1, -⟩ : r1 = r ∧ s1 = s' := by simpa using h
      exact h1 ▸ hlt
    · rw [if_neg hlt] at h
      exact ih s1 h

theorem randbelow_lt (fuel n : Nat) (s : MTState) (r : Nat) (s' : MTState)
    (hn : 0 < n) (h : randbelow fuel n s = some (r, s')) : r < n := by
  rw [randbelow, if_neg (by omega)] at h
  exact randbelowLoop_lt fuel (pyBitLength n) n s r s' h

theorem take_set_comm (l : List Nat) (i a n : Nat) (h : i < n) :
    (l.set i a).take n = (l.take n).set i a := by
  induction l generalizing i n with
  | nil => simp
  | cons x xs ih =>
    cases i with
    | zero =>
      cases n with
      | zero => omega
      | succ m => simp
    | succ i' =>
      cases n with
      | zero => omega
      | succ m =>
        simp only [List.set_cons_succ, List.take_succ_cons]
        rw [ih i' m (by omega)]

theorem swap_perm_aux (A B : List Nat) (x v : Nat) :
    ((A ++ x :: B) ++ [v]).Perm (x :: (A ++ v :: B)) := by
  have h1 : (A ++ x :: B) ++ [v] = A ++ x :: (B ++ [v]) := by simp
  rw [h1]
  exact List.Perm.trans List.perm_middle
    (List.Perm.cons _ (List.Perm.append_left _ (List.perm_append_singleton _ _)))

/-- The swap-remove step of the pool algorithm, as a permutation: the live
pool before the pick is a permutation of the picked element together with
the live pool after the swap-remove. -/
theorem pool_swap_perm (pool : List Nat) (m j : Nat) (hm : m ≤ pool.length) (hj : j < m) :
    (pool.take m).Perm
      (pool.getD j 0 :: ((pool.set j (pool.getD (m - 1) 0)).take (m - 1))) := by
  have hm1 : m - 1 < pool.length := by omega
  have hjp : j < pool.length := by omega
  have hv : pool.getD (m - 1) 0 = pool[m - 1] := List.getD_eq_getElem pool 0 hm1
  have hx : pool.getD j 0 = pool[j] := List.getD_eq_getElem pool 0 hjp
  have htake : pool.take m = pool.take (m - 1) ++ [pool[m - 1]] := by
    conv_lhs => rw [show m = (m - 1) + 1 from by omega]
    rw [List.take_succ, List.getElem?_eq_getElem hm1]
    rfl
  by_cases hje : j = m - 1
  · subst hje
    have hset : pool.set (m - 1) (pool.getD (m - 1) 0) = pool := by
      rw [hv, List.set_eq_take_append_cons_drop, if_pos hm1,
        ← List.drop_eq_getElem_cons hm1]
      exact List.take_append_drop _ _
    rw [hset, htake, hx]
    exact List.perm_append_singleton _ _
  · have hjlt : j < m - 1 := by omega
    have hjt : j < (pool.take (m - 1)).length := by
      rw [List.length_take]; omega
    have htj : pool[j] = (pool.take (m - 1))[j] := List.getElem_take' pool hjp hjlt
    have hdec : pool.take (m - 1) =
        (pool.take (m - 1)).take j ++ pool[j] :: (pool.take (m - 1)).drop (j + 1) := by
      conv_lhs => rw [← List.take_append_drop j (pool.take (m - 1))]
      rw [List.drop_eq_getElem_cons hjt, ← htj]
    have hsetd : (pool.take (m - 1)).set j pool[m - 1] =
        (pool.take (m - 1)).take j ++ pool[m - 1] :: (pool.take (m - 1)).drop (j + 1) := by
      rw [List.set_eq_take_append_cons_drop, if_pos hjt]
    have htset : (pool.set j (pool.getD (m - 1) 0)).take (m - 1) =
        (pool.take (m - 1)).set j pool[m - 1] := by
      rw [hv, take_set_comm pool j pool[m - 1] (m - 1) hjlt]
    rw [htake, htset, hx, hsetd]
    have key := swap_perm_aux ((pool.take (m - 1)).take j)
      ((pool.take (m - 1)).drop (j + 1)) pool[j] pool[m - 1]
    rw [← hdec] at key
    exact key

theorem poolLoop_spec (fuel : Nat) (c : Nat) :
    ∀ (m : Nat) (pool : List Nat) (s : MTState) (l : List Nat) (s' : MTState),
    c ≤ m → m ≤ pool.length → (pool.take m).Nodup →
    poolLoop fuel c m pool s = some (l, s') →
    l.length = c ∧ l.Nodup ∧ ∀ x ∈ l, x ∈ pool.take m := by
  induction c with
  | zero =>
    intro m pool s l s' _ _ _ h
    simp only [poolLoop, Option.some.injEq, Prod.mk.injEq] at h
    obtain ⟨h1, -⟩ := h
    subst h1
    exact ⟨rfl, List.nodup_nil, by simp⟩
  | succ c ih =>
    intro m pool s l s' hc hm hnd h
    simp only [poolLoop] at h
    split at h
    · exact absurd h (by simp)
    · rename_i j s1 hrb
      have hj : j < m := randbelow_lt fuel m s j s1 (by omega) hrb
      split at h
      · exact absurd h (by simp)
      · rename_i rest s2 hrec
        simp only [Option.some.injEq, Prod.mk.injEq] at h
        obtain ⟨hl, hs⟩ := h
        have hperm := pool_swap_perm pool m j hm hj
        have hnd' := hperm.nodup hnd
        obtain ⟨hx_notmem, hnd''⟩ := List.nodup_cons.mp hnd'
        have hlen' : m - 1 ≤ (pool.set j (pool.getD (m - 1) 0)).length := by
          rw [List.length_set]; omega
        obtain ⟨hlr, hndr, hsub⟩ := ih (m - 1) _ s1 rest s2 (by omega) hlen' hnd'' hrec
        subst hl
        refine ⟨by simp [hlr], ?_, ?_⟩
        · rw [List.nodup_cons]
          exact ⟨fun hmem => hx_notmem (hsub _ hmem), hndr⟩
        · intro y hy
          rcases List.mem_cons.mp hy with rfl | hy'
          · exact (hperm.mem_iff).mpr (List.mem_cons_self _ _)
          · exact (hperm.mem_iff).mpr (List.mem_cons_of_mem _ (hsub y hy'))

theorem selPick_spec (fuel : Nat) :
    ∀ (rfuel n : Nat) (selected : List Nat) (s : MTState) (j : Nat) (s' : MTState),
    0 < n → selPick fuel rfuel n selected s = some (j, s') →
    j < n ∧ j ∉ selected := by
  induction fuel with
  | zero => intro rfuel n selected s j s' _ h; simp [selPick] at h
  | succ f ih =>
    intro rfuel n selected s j s' hn h
    simp only [selPick] at h
    split at h
    · exact absurd h (by simp)
    · rename_i j1 s1 hrb
      by_cases hmem : j1 ∈ selected
      · rw [if_pos hmem] at h
        exact ih rfuel n selected s1 j s' hn h
      · rw [if_neg hmem] at h
        obtain ⟨h1, -⟩ : j1 = j ∧ s1 = s' := by simpa using h
        subst h1
        exact ⟨randbelow_lt rfuel n s j1 s1 hn hrb, hmem⟩

theorem selLoop_spec (fuel n : Nat) (c : Nat) :
    ∀ (selected : List Nat) (s : MTState) (l : List Nat) (s' : MTState),
    0 < n → selLoop fuel n c selected s = some (l, s') →
    l.length = c ∧ l.Nodup ∧ ∀ x ∈ l, x < n ∧ x ∉ selected := by
  induction c with
  | zero =>
    intro selected s l s' _ h
    simp only [selLoop, Option.some.injEq, Prod.mk.injEq] at h
    obtain ⟨h1, -⟩ := h
    subst h1
    exact ⟨rfl, List.nodup_nil, by simp⟩
  | succ c ih =>
    intro selected s l s' hn h
    simp only [selLoop] at h
    split at h
    · exact absurd h (by simp)
    · rename_i j s1 hsp
      split at h
      · exact absurd h (by simp)
      · rename_i rest s2 hrec
        simp only [Option.some.injEq, Prod.mk.injEq] at h
        obtain ⟨hl, -⟩ := h
        obtain ⟨hjn, hjsel⟩ := selPick_spec fuel fuel n selected s j s1 hn hsp
        obtain ⟨hlr, hndr, hsub⟩ := ih (j :: selected) s1 rest s2 hn hrec
        subst hl
        refine ⟨by simp [hlr], ?_, ?_⟩
        · rw [List.nodup_cons]
          refine ⟨fun hmem => ?_, hndr⟩
          exact (hsub j hmem).2 (List.mem_cons_self _ _)
        · intro y hy
          rcases List.mem_cons.mp hy with rfl | hy'
          · exact ⟨hjn, hjsel⟩
          · have := hsub y hy'
            exact ⟨this.1, fun hc => this.2 (List.mem_cons_of_mem _ hc)⟩

theorem pySample_spec (fuel : Nat) (s : MTState) (n k : Nat) (l : List Nat) (s' : MTState)
    (h : pySample fuel s n k = some (l, s')) :
    l.length = k ∧ l.Nodup ∧ ∀ x ∈ l, x < n := by
  rw [pySample] at h
  by_cases hkn : k ≤ n
  · rw [if_pos hkn] at h
    by_cases hss : n ≤ sampleSetsize k
    · rw [if_pos hss] at h
      have hrange : (List.range n).take n = List.range n :=
        List.take_of_length_le (by simp)
      have := poolLoop_spec fuel k n (List.range n) s l s' hkn (by simp)
        (by rw [hrange]; exact List.nodup_range n) h
      refine ⟨this.1, this.2.1, fun x hx => ?_⟩
      have hmem := this.2.2 x hx
      rw [hrange] at hmem
      exact List.mem_range.mp hmem
    · rw [if_neg hss] at h
      have hn : 0 < n := by
        have : 21 ≤ sampleSetsize k := Nat.le_add_right 21 _
        omega
      have := selLoop_spec fuel n k [] s l s' hn h
      exact ⟨this.1, this.2.1, fun x hx => (this.2.2 x hx).1⟩
  · rw [if_neg hkn] at h
    exact absurd h (by simp)

/-- C1 (amended): whenever the sampling procedure returns (its rejection
loops need not terminate for adversarial streams, so the embedding carries
fuel), the mask of `RandomMasking` on a sequence of length `num_clips`
contains exactly `⌊num_clips * ratio⌋` distinct indices from
`[0, num_clips)`, drawn without replacement; the mask and the successor
generator state are a function of the incoming generator state, so an
instance re-seeded identically reproduces the same mask, while re-applying
the same instance resumes from the advanced state and can produce a
different set (see the counterexample for seed 42). -/
theorem C1_random_masking_floor (fuel : Nat) (r : ℚ) (s : MTState) (num_clips : Nat)
    (S : Finset Nat) (s' : MTState) (hr : 0 ≤ r)
    (h : randomMaskIndices fuel r s num_clips = some (S, s')) :
    (S.card : ℤ) = ⌊(num_clips : ℚ) * r⌋ ∧ ∀ x ∈ S, x < num_clips := by
  unfold randomMaskIndices at h
  replace h : (pySample fuel s num_clips ((⌊(num_clips : ℚ) * r⌋).toNat)).map
      (fun pr => (pr.1.toFinset, pr.2)) = some (S, s') := h
  rcases hps : pySample fuel s num_clips ((⌊(num_clips : ℚ) * r⌋).toNat) with _ | ⟨l, s2⟩
  · rw [hps] at h
    exact absurd h (by simp)
  · rw [hps] at h
    simp only [Option.map_some', Option.some.injEq, Prod.mk.injEq] at h
    obtain ⟨hS, -⟩ := h
    obtain ⟨hlen, hnd, hmem⟩ := pySample_spec fuel s num_clips _ l s2 hps
    have hcard : S.card = l.length := by
      rw [← hS, List.toFinset_card_of_nodup hnd]
    constructor
    · rw [hcard, hlen]
      exact Int.toNat_of_nonneg (Int.le_floor.mpr (by positivity))
    · intro x hx
      rw [← hS] at hx
      exact hmem x (List.mem_toFinset.mp hx)


/-! ### The concrete generator of `random.Random(42)`

The counterexample to the re-application conjunct of the random-masking
claim needs the actual seeded state.  Rather than evaluating the deep
seeding recurrences directly, each loop's output array is pinned as a
literal and certified by its pointwise recurrence, checked in one pass;
the frontier-walk lemmas above the literals replay the loops symbolically. -/

/-- The value of a `take`-prefix at an index inside the prefix. -/
theorem getD_take_lt (L : List Nat) (n m : Nat) (h : m < n) :
    (L.take n).getD m 0 = L.getD m 0 := by
  rw [List.getD_eq_getElem?_getD, List.getD_eq_getElem?_getD, List.getElem?_take_of_lt h]

/-- Reading a mixed `Q.take k ++ P.drop k` state below the write frontier
sees the new array `Q`. -/
theorem getD_mid_left (Q P : List Nat) (k pos : Nat) (hk : k ≤ Q.length) (hpos : pos < k) :
    (Q.take k ++ P.drop k).getD pos 0 = Q.getD pos 0 := by
  rw [List.getD_eq_getElem?_getD, List.getD_eq_getElem?_getD,
    List.getElem?_append_left (by rw [List.length_take]; omega),
    List.getElem?_take_of_lt hpos]

/-- Reading a mixed `Q.take k ++ P.drop k` state at or above the write
frontier sees the old array `P`. -/
theorem getD_mid_right (Q P : List Nat) (k pos : Nat) (hk : k ≤ Q.length) (hpos : k ≤ pos) :
    (Q.take k ++ P.drop k).getD pos 0 = P.getD pos 0 := by
  rw [List.getD_eq_getElem?_getD, List.getD_eq_getElem?_getD,
    List.getElem?_append_right (by rw [List.length_take]; omega),
    List.length_take, Nat.min_eq_left hk, List.getElem?_drop]
  rw [show k + (pos - k) = pos from by omega]

/-- Writing the next value of `Q` at the frontier advances the frontier. -/
theorem set_mid (Q P : List Nat) (k : Nat) (hk : k < Q.length) (hkP : k < P.length) :
    (Q.take k ++ P.drop k).set k (Q.getD k 0) = Q.take (k + 1) ++ P.drop (k + 1) := by
  rw [List.set_append_right _ _ (by rw [List.length_take]; omega),
    List.length_take, show min k Q.length = k from by omega, Nat.sub_self,
    List.drop_eq_getElem_cons hkP, List.set_cons_zero,
    List.take_succ, List.getElem?_eq_getElem hk, List.append_assoc,
    List.getD_eq_getElem Q 0 hk]
  rfl

/-- The `init_genrand` recurrence checked in one pass over the literal array. -/
def certA (L : List Nat) : Bool :=
  ((L.zip (L.drop 1)).enum).all fun pr =>
    pr.2.2 == (1812433253 * (pr.2.1 ^^^ (pr.2.1 >>> 30)) + (pr.1 + 1)) % M32

theorem getElem?_getD (l : List Nat) (n : Nat) (h : n < l.length) :
    l[n]? = some (l.getD n 0) := by
  rw [List.getElem?_eq_getElem h, List.getD_eq_getElem l 0 h]

theorem certA_spec (L : List Nat) (hL : L.length = 624) (h : certA L = true) :
    ∀ t, t ≤ 622 →
      L.getD (t + 1) 0 =
        (1812433253 * (L.getD t 0 ^^^ (L.getD t 0 >>> 30)) + (t + 1)) % M32 := by
  intro t ht
  have hd1 : L[t]? = some (L.getD t 0) := getElem?_getD L t (by omega)
  have hd2 : (L.drop 1)[t]? = some (L.getD (t + 1) 0) := by
    rw [List.getElem?_drop, show 1 + t = t + 1 from by omega]
    exact getElem?_getD L (t + 1) (by omega)
  have hz : (L.zip (L.drop 1))[t]? = some (L.getD t 0, L.getD (t + 1) 0) := by
    rw [List.getElem?_zip_eq_some]
    exact ⟨hd1, hd2⟩
  have ht2 : ((L.zip (L.drop 1)).enum)[t]? = some (t, (L.getD t 0, L.getD (t + 1) 0)) := by
    rw [List.getElem?_enum, hz]
    rfl
  rw [certA, List.all_eq_true] at h
  have hp := h _ (List.getElem?_mem ht2)
  simp only [beq_iff_eq] at hp
  exact hp

/-- `init_genrand` prefix characterisation: a length-624 array satisfying the
recurrence pointwise is computed by the appending fold. -/
theorem initSeg (L : List Nat) (hL : L.length = 624)
    (hrec : ∀ t, t ≤ 622 →
      L.getD (t + 1) 0 =
        (1812433253 * (L.getD t 0 ^^^ (L.getD t 0 >>> 30)) + (t + 1)) % M32) :
    ∀ b, b ≤ 623 → (List.range' 0 b).foldl igStep [L.getD 0 0] = L.take (b + 1) := by
  intro b
  induction b with
  | zero =>
    intro _
    cases L with
    | nil => simp at hL
    | cons a as => simp [List.getD]
  | succ c ih =>
    intro hb
    have e : List.range' 0 (c + 1) = List.range' 0 c ++ [c] := by
      have h := List.range'_append 0 c 1 1
      simp only [Nat.one_mul, Nat.zero_add] at h
      rw [Nat.add_comm 1 c] at h
      simpa using h.symm
    rw [e, List.foldl_append, ih (by omega), List.foldl_cons, List.foldl_nil]
    simp only [igStep]
    rw [getD_take_lt L (c + 1) c (by omega)]
    rw [← hrec c (by omega)]
    conv_rhs => rw [List.take_succ, List.getElem?_eq_getElem (show c + 1 < L.length by omega)]
    rw [List.getD_eq_getElem L 0 (show c + 1 < L.length by omega)]
    rfl

/-- The first `init_by_array` mixing formula, specialised to the
single-word key `[42]` (so the key index `j` is always 0). -/
def stepB (p prev : Nat) : Nat :=
  ((p ^^^ (((prev ^^^ (prev >>> 30)) * 1664525) % M32)) + 42 + 0) % M32

/-- Away from the wrap boundary, one `ibaStep1 [42]` iteration is a single
in-place write at the running index. -/
theorem ibaStep1_mid (mt : List Nat) (i x : Nat) (h2 : i ≤ 622) :
    ibaStep1 [42] (mt, i, 0) x =
      (mt.set i (stepB (mt.getD i 0) (mt.getD (i - 1) 0)), i + 1, 0) := by
  simp only [ibaStep1]
  rw [if_neg (show ¬(i + 1 ≥ 624) from by omega),
    if_pos (show 0 + 1 ≥ ([42] : List Nat).length from by simp)]
  rfl

/-- The loop-1 recurrence between the incoming array `P` and the array `Q`
after the 622 wrap-free writes, checked in one pass. -/
def certB (P Q : List Nat) : Bool :=
  (((P.drop 1).zip (Q.zip (Q.drop 1))).take 622).all fun pr =>
    pr.2.2 == stepB pr.1 pr.2.1

theorem certB_spec (P Q : List Nat) (hP : P.length = 624) (hQ : Q.length = 624)
    (h : certB P Q = true) :
    ∀ t, 1 ≤ t → t ≤ 622 → Q.getD t 0 = stepB (P.getD t 0) (Q.getD (t - 1) 0) := by
  intro t h1 h2
  have hd1 : (P.drop 1)[t - 1]? = some (P.getD t 0) := by
    rw [List.getElem?_drop, show 1 + (t - 1) = t from by omega]
    exact getElem?_getD P t (by omega)
  have hd2 : Q[t - 1]? = some (Q.getD (t - 1) 0) := getElem?_getD Q (t - 1) (by omega)
  have hd3 : (Q.drop 1)[t - 1]? = some (Q.getD t 0) := by
    rw [List.getElem?_drop, show 1 + (t - 1) = t from by omega]
    exact getElem?_getD Q t (by omega)
  have ht : (((P.drop 1).zip (Q.zip (Q.drop 1))).take 622)[t - 1]? =
      some (P.getD t 0, Q.getD (t - 1) 0, Q.getD t 0) := by
    rw [List.getElem?_take_of_lt (show t - 1 < 622 from by omega)]
    rw [List.getElem?_zip_eq_some]
    exact ⟨hd1, by rw [List.getElem?_zip_eq_some]; exact ⟨hd2, hd3⟩⟩
  rw [certB, List.all_eq_true] at h
  have hp := h _ (List.getElem?_mem ht)
  simp only [beq_iff_eq] at hp
  exact hp

/-- Loop 1 of `init_by_array` on its wrap-free stretch: with the pointwise
recurrence certified, the fold walks the write frontier across the array. -/
theorem phase1_seg (P Q : List Nat) (hP : P.length = 624) (hQ : Q.length = 624)
    (lo : Nat) (hlo : 1 ≤ lo)
    (hrec : ∀ t, lo ≤ t → t ≤ 622 → Q.getD t 0 = stepB (P.getD t 0) (Q.getD (t - 1) 0)) :
    ∀ count start u, lo ≤ start → start + count ≤ 623 →
      (List.range' u count).foldl (ibaStep1 [42]) (Q.take start ++ P.drop start, start, 0) =
        (Q.take (start + count) ++ P.drop (start + count), start + count, 0) := by
  intro count
  induction count with
  | zero =>
    intro start u _ _
    simp
  | succ c ih =>
    intro start u hs hsc
    rw [List.range'_succ, List.foldl_cons]
    rw [ibaStep1_mid _ _ _ (by omega)]
    rw [getD_mid_right Q P start start (by omega) (le_refl _)]
    rw [getD_mid_left Q P start (start - 1) (by omega) (by omega)]
    rw [← hrec start hs (by omega)]
    rw [set_mid Q P start (by omega) (by omega)]
    have h := ih (start + 1) (u + 1) (by omega) (by omega)
    rw [h, show start + 1 + c = start + (c + 1) from by omega]

/-- The second `init_by_array` mixing formula. -/
def stepC (t p prev : Nat) : Nat :=
  ((p ^^^ (((prev ^^^ (prev >>> 30)) * 1566083941) % M32)) + (M32 - t % M32)) % M32

/-- Away from the wrap boundary, one `ibaStep2` iteration is a single
in-place write at the running index. -/
theorem ibaStep2_mid (mt : List Nat) (i x : Nat) (h2 : i ≤ 622) :
    ibaStep2 (mt, i) x =
      (mt.set i (stepC i (mt.getD i 0) (mt.getD (i - 1) 0)), i + 1) := by
  simp only [ibaStep2]
  rw [if_neg (show ¬(i + 1 ≥ 624) from by omega)]
  rfl

/-- The loop-2 recurrence between the incoming array `P` and the array `Q`
after the 621 wrap-free writes (indices 2 to 622), checked in one pass. -/
def certC (P Q : List Nat) : Bool :=
  ((((P.drop 2).zip ((Q.drop 1).zip (Q.drop 2))).take 621).enum).all fun pr =>
    pr.2.2.2 == stepC (pr.1 + 2) pr.2.1 pr.2.2.1

theorem certC_spec (P Q : List Nat) (hP : P.length = 624) (hQ : Q.length = 624)
    (h : certC P Q = true) :
    ∀ t, 2 ≤ t → t ≤ 622 → Q.getD t 0 = stepC t (P.getD t 0) (Q.getD (t - 1) 0) := by
  intro t h1 h2
  have hd1 : (P.drop 2)[t - 2]? = some (P.getD t 0) := by
    rw [List.getElem?_drop, show 2 + (t - 2) = t from by omega]
    exact getElem?_getD P t (by omega)
  have hd2 : (Q.drop 1)[t - 2]? = some (Q.getD (t - 1) 0) := by
    rw [List.getElem?_drop, show 1 + (t - 2) = t - 1 from by omega]
    exact getElem?_getD Q (t - 1) (by omega)
  have hd3 : (Q.drop 2)[t - 2]? = some (Q.getD t 0) := by
    rw [List.getElem?_drop, show 2 + (t - 2) = t from by omega]
    exact getElem?_getD Q t (by omega)
  have hz : (((P.drop 2).zip ((Q.drop 1).zip (Q.drop 2))).take 621)[t - 2]? =
      some (P.getD t 0, Q.getD (t - 1) 0, Q.getD t 0) := by
    rw [List.getElem?_take_of_lt (show t - 2 < 621 from by omega)]
    rw [List.getElem?_zip_eq_some]
    exact ⟨hd1, by rw [List.getElem?_zip_eq_some]; exact ⟨hd2, hd3⟩⟩
  have ht : ((((P.drop 2).zip ((Q.drop 1).zip (Q.drop 2))).take 621).enum)[t - 2]? =
      some (t - 2, (P.getD t 0, Q.getD (t - 1) 0, Q.getD t 0)) := by
    rw [List.getElem?_enum, hz]
    rfl
  rw [certC, List.all_eq_true] at h
  have hp := h _ (List.getElem?_mem ht)
  simp only [beq_iff_eq] at hp
  rw [show t - 2 + 2 = t from by omega] at hp
  exact hp

/-- Loop 2 of `init_by_array` on its wrap-free stretch. -/
theorem phase2_seg (P Q : List Nat) (hP : P.length = 624) (hQ : Q.length = 624)
    (lo : Nat) (hlo : 1 ≤ lo)
    (hrec : ∀ t, lo ≤ t → t ≤ 622 → Q.getD t 0 = stepC t (P.getD t 0) (Q.getD (t - 1) 0)) :
    ∀ count start u, lo ≤ start → start + count ≤ 623 →
      (List.range' u count).foldl ibaStep2 (Q.take start ++ P.drop start, start) =
        (Q.take (start + count) ++ P.drop (start + count), start + count) := by
  intro count
  induction count with
  | zero =>
    intro start u _ _
    simp
  | succ c ih =>
    intro start u hs hsc
    rw [List.range'_succ, List.foldl_cons]
    rw [ibaStep2_mid _ _ _ (by omega)]
    rw [getD_mid_right Q P start start (by omega) (le_refl _)]
    rw [getD_mid_left Q P start (start - 1) (by omega) (by omega)]
    rw [← hrec start hs (by omega)]
    rw [set_mid Q P start (by omega) (by omega)]
    have h := ih (start + 1) (u + 1) (by omega) (by omega)
    rw [h, show start + 1 + c = start + (c + 1) from by omega]

theorem getD_append_left (l₁ l₂ : List Nat) (m : Nat) (h : m < l₁.length) :
    (l₁ ++ l₂).getD m 0 = l₁.getD m 0 := by
  rw [List.getD_eq_getElem?_getD, List.getD_eq_getElem?_getD, List.getElem?_append_left h]

theorem getD_append_right (l₁ l₂ : List Nat) (m : Nat) (h : l₁.length ≤ m) :
    (l₁ ++ l₂).getD m 0 = l₂.getD (m - l₁.length) 0 := by
  rw [List.getD_eq_getElem?_getD, List.getD_eq_getElem?_getD, List.getElem?_append_right h]

theorem getD_drop (l : List Nat) (n m : Nat) :
    (l.drop n).getD m 0 = l.getD (n + m) 0 := by
  rw [List.getD_eq_getElem?_getD, List.getD_eq_getElem?_getD, List.getElem?_drop]

/-- The twist mixing formula: `p` is the word at the write index, `r2` the
word one ahead (mod 624), `r3` the word 397 ahead (mod 624). -/
def stepD (p r2 r3 : Nat) : Nat :=
  let y := (p &&& 2147483648) ||| (r2 &&& 2147483647)
  r3 ^^^ (y >>> 1) ^^^ (if y % 2 = 1 then 2567483615 else 0)

theorem twistStep_mid (mt : List Nat) (k : Nat) :
    twistStep mt k =
      mt.set k (stepD (mt.getD k 0) (mt.getD ((k + 1) % 624) 0)
        (mt.getD ((k + 397) % 624) 0)) := by
  simp only [twistStep, stepD]

/-- The twist recurrence: reads one ahead come from the old array except at
the last index, reads 397 ahead come from the old array for the first 227
indices and from the new array afterwards. -/
def certD (P Q : List Nat) : Bool :=
  (P.zip ((P.drop 1 ++ [Q.getD 0 0]).zip ((P.drop 397 ++ Q).zip Q))).all fun pr =>
    pr.2.2.2 == stepD pr.1 pr.2.1 pr.2.2.1

theorem certD_spec (P Q : List Nat) (hP : P.length = 624) (hQ : Q.length = 624)
    (h : certD P Q = true) :
    ∀ t, t ≤ 623 →
      Q.getD t 0 = stepD (P.getD t 0) ((P.drop 1 ++ [Q.getD 0 0]).getD t 0)
        ((P.drop 397 ++ Q).getD t 0) := by
  intro t h2
  have hd1 : P[t]? = some (P.getD t 0) := getElem?_getD P t (by omega)
  have hd2 : (P.drop 1 ++ [Q.getD 0 0])[t]? =
      some ((P.drop 1 ++ [Q.getD 0 0]).getD t 0) :=
    getElem?_getD _ t (by rw [List.length_append, List.length_drop, hP, List.length_singleton]; omega)
  have hd3 : (P.drop 397 ++ Q)[t]? = some ((P.drop 397 ++ Q).getD t 0) :=
    getElem?_getD _ t (by rw [List.length_append, List.length_drop, hP, hQ]; omega)
  have hd4 : Q[t]? = some (Q.getD t 0) := getElem?_getD Q t (by omega)
  have ht : (P.zip ((P.drop 1 ++ [Q.getD 0 0]).zip ((P.drop 397 ++ Q).zip Q)))[t]? =
      some (P.getD t 0, (P.drop 1 ++ [Q.getD 0 0]).getD t 0,
        (P.drop 397 ++ Q).getD t 0, Q.getD t 0) := by
    rw [List.getElem?_zip_eq_some]
    exact ⟨hd1, by
      rw [List.getElem?_zip_eq_some]
      exact ⟨hd2, by rw [List.getElem?_zip_eq_some]; exact ⟨hd3, hd4⟩⟩⟩
  rw [certD, List.all_eq_true] at h
  have hp := h _ (List.getElem?_mem ht)
  simp only [beq_iff_eq] at hp
  exact hp

/-- The twist as a frontier walk: the certified recurrence drives the fold
across the whole array. -/
theorem twistSeg (P Q : List Nat) (hP : P.length = 624) (hQ : Q.length = 624)
    (hrec : ∀ t, t ≤ 623 →
      Q.getD t 0 = stepD (P.getD t 0) ((P.drop 1 ++ [Q.getD 0 0]).getD t 0)
        ((P.drop 397 ++ Q).getD t 0)) :
    ∀ count start, start + count ≤ 624 →
      (List.range' start count).foldl twistStep (Q.take start ++ P.drop start) =
        Q.take (start + count) ++ P.drop (start + count) := by
  intro count
  induction count with
  | zero =>
    intro start _
    simp
  | succ c ih =>
    intro start hsc
    rw [List.range'_succ, List.foldl_cons]
    rw [twistStep_mid]
    have hread1 : (Q.take start ++ P.drop start).getD start 0 = P.getD start 0 :=
      getD_mid_right Q P start start (by omega) (le_refl _)
    have hread2 : (Q.take start ++ P.drop start).getD ((start + 1) % 624) 0 =
        (P.drop 1 ++ [Q.getD 0 0]).getD start 0 := by
      by_cases hlt : start < 623
      · rw [Nat.mod_eq_of_lt (show start + 1 < 624 from by omega),
          getD_mid_right Q P start (start + 1) (by omega) (by omega),
          getD_append_left _ _ start (by rw [List.length_drop, hP]; omega),
          getD_drop, Nat.add_comm 1 start]
      · have h623 : start = 623 := by omega
        subst h623
        rw [show (623 + 1) % 624 = 0 from by norm_num,
          getD_mid_left Q P 623 0 (by omega) (by omega),
          getD_append_right _ _ 623 (by rw [List.length_drop, hP]),
          List.length_drop, hP]
        rfl
    have hread3 : (Q.take start ++ P.drop start).getD ((start + 397) % 624) 0 =
        (P.drop 397 ++ Q).getD start 0 := by
      by_cases hlt : start < 227
      · rw [Nat.mod_eq_of_lt (show start + 397 < 624 from by omega),
          getD_mid_right Q P start (start + 397) (by omega) (by omega),
          getD_append_left _ _ start (by rw [List.length_drop, hP]; omega),
          getD_drop, Nat.add_comm 397 start]
      · rw [Nat.mod_eq_sub_mod (show 624 ≤ start + 397 from by omega),
          Nat.mod_eq_of_lt (show start + 397 - 624 < 624 from by omega),
          show start + 397 - 624 = start - 227 from by omega,
          getD_mid_left Q P start (start - 227) (by omega) (by omega),
          getD_append_right _ _ start (by rw [List.length_drop, hP]; omega),
          List.length_drop, hP]
    rw [hread1, hread2, hread3]
    rw [← hrec start (by omega)]
    rw [set_mid Q P start (by omega) (by omega)]
    have h := ih (start + 1) (by omega)
    rw [h, show start + 1 + c = start + (c + 1) from by omega]

/-- The MT19937 base array `init_genrand(19650218)`. -/
def mtA : List Nat := [19650218, 2194844435, 874550967, 1417962806, 719805879, 2188372024, 721660136, 1814940559, 2833403150, 3889680837, 1003665704, 1330738387, 2892331238, 3489052161, 3855278296, 3311200630, 1422571577, 2585306665, 2882769417, 2783805802, 4207719964, 2400416080, 2341377904, 2590753297, 3924081815, 1211472509, 3057012486, 3436335279, 551149560, 1318655221, 1900533858, 3537525294, 2107812065, 3148644481, 594136785, 1814262168, 1224061569, 653651109, 254650943, 2832785922, 3699583528, 2088609312, 3529585711, 41492871, 2876012911, 4240588078, 1402615791, 1934126869, 3096545044, 2890863071, 80499043, 970921794, 3007610686, 750866145, 799115259, 3629971774, 2864380489, 3888374480, 2087741561, 3146346387, 3269762417, 2727485495, 2488668711, 2964190680, 2116659522, 4141458096, 3537107937, 3667677805, 2429248426, 2452306317, 3015982257, 499957222, 2360410630, 4194693085, 147288288, 3359074475, 1635136148, 4073107990, 3628367767, 3898116531, 275612352, 2842514961, 3115851985, 3103448722, 302309156, 22171017, 2075519075, 3671007489, 3949991970, 1963601502, 4167967445, 804406473, 1055110313, 3894654986, 2278780139, 34711884, 4121261916, 3468881884, 2287991389, 393453278, 548699130, 1499706375, 332872900, 1556864443, 1043137738, 4174970395, 1614747618, 669116410, 1897615374, 3255278936, 1370736725, 1550777747, 1685794058, 1862314184, 2400528575, 2672900100, 1647333586, 3524644532, 1765506473, 2857335743, 3636393737, 2932986219, 1203228647, 1628511289, 3647085204, 2987412752, 2905279128, 2631768385, 4014428911, 1727529885, 1124854030, 2262104686, 2499713312, 2421398767, 4134715143, 2358935835, 1002066021, 340444514, 3268366900, 1112268606, 1897974631, 3331577291, 2922602614, 3423543891, 1267030560, 2344564886, 1942259446, 3179572998, 1573187880, 1205933762, 3025229445, 4246102746, 346693941, 2002220930, 1829519945, 3309743875, 1904872348, 955816590, 2796353700, 668528669, 2648785169, 2704726048, 893089804, 738773343, 2832484895, 2050343702, 104744889, 3439545764, 980222603, 422274176, 3865519914, 2026267864, 539814729, 4137805178, 1140607595, 2537690753, 3971218783, 1931293181, 3089667358, 1133695167, 399772074, 3682192071, 4293649418, 1029228868, 3902327948, 1974090788, 3344730195, 2795804747, 3396216457, 366677807, 416687433, 930072460, 901228284, 1521860141, 3484259358, 478803252, 3138556488, 4137898487, 3807832586, 3773310804, 3221624091, 3076008769, 4156878137, 406561453, 3897607181, 623564883, 2247148685, 1696011322, 2911604503, 3979653402, 742342831, 3881512158, 2282092805, 2681274264, 3681829528, 46152446, 3126539534, 3635632789, 1012335624, 3686064131, 2587648220, 2008745587, 2556071384, 1788453345, 861781568, 2727104545, 758340017, 1880693944, 2136364769, 1370367813, 798286522, 506003017, 2520802485, 2991500316, 3489134272, 3275208410, 1640252809, 3797759893, 4271912220, 3111882026, 140581304, 2568658569, 2686841033, 3059852298, 293994524, 1890650113, 1797269750, 3428669802, 1401714789, 2643788909, 3727894469, 2833360921, 1622853283, 3832221927, 277065458, 3711010937, 4192871202, 3356722694, 680496635, 2574997514, 1476265004, 3232676806, 3318710975, 4210635059, 4159903992, 2116300560, 2532158399, 718792604, 2539969944, 3164133583, 2649636591, 2200349072, 2851998122, 670873689, 2613796143, 3562264788, 1174445287, 1149173203, 2225964784, 4266377361, 3119455410, 1518371465, 1816545474, 2516586762, 240910660, 2681595121, 1301176317, 3127753611, 862342957, 771183330, 438085196, 1046497567, 922186079, 1222939296, 51184555, 1757804190, 426665187, 2730510776, 2573705612, 1312406577, 667742236, 3239950393, 2582034960, 3759737929, 1601926242, 2947737408, 975540284, 1285948639, 3761027786, 1226457986, 34782949, 2916146832, 142734034, 569716755, 4042990521, 3947471773, 1575951506, 3517313596, 3100986137, 2199197158, 3376719924, 4087139828, 3705107125, 1482533137, 1541227668, 1678953742, 2056318769, 3045003063, 1622629937, 487578169, 4137196231, 3764647071, 2241527512, 2558474063, 1038354351, 2094837850, 2481932343, 3229539130, 3756851151, 1006180559, 4181103103, 3565909441, 2371373280, 1493415041, 160348120, 1285104017, 3595587370, 4264242568, 1161124915, 2042766103, 737713932, 3481808155, 478389208, 1300643225, 1007986266, 1168231653, 3652705112, 2909421388, 3924670764, 1731016690, 4084014919, 4205099837, 1373900512, 2937538864, 2730075174, 957417377, 3258199283, 87174175, 792789163, 2527971304, 2716998340, 3091367825, 97659251, 1782441684, 919015551, 735476370, 87326482, 926205331, 1888657273, 3715638227, 1715499660, 1922410526, 4175228089, 1525608673, 3578587616, 2042086160, 3730509879, 3607443975, 3879209240, 3652717612, 2372597521, 3471943430, 2765853569, 3643232056, 3297105617, 2692883557, 1805942063, 1394934451, 3337180104, 1181922214, 2331394419, 306465830, 3736887952, 1729663122, 3390355091, 2379159653, 3851731257, 4021176185, 1079541434, 433656928, 1831627642, 2892512290, 4063025724, 406246264, 1293199350, 1120564498, 3926678815, 1350089133, 4273098366, 3385122292, 993379095, 725502136, 25504318, 752278045, 3729298457, 2392480235, 2657233815, 320925812, 2950230896, 989728679, 506301841, 1404204260, 1413065993, 865242585, 866785615, 1859142878, 589268143, 775553472, 1410495094, 1607063978, 3888932143, 704411669, 3513884419, 3370826939, 2896358996, 439226283, 2352722741, 1626809714, 246502175, 189424636, 1337937966, 3719088974, 4178799653, 2794717891, 1831166187, 1862432793, 2263235392, 3847861459, 802662362, 3621709005, 2634319122, 3245216029, 1466421412, 1528864744, 349292989, 3152395874, 3374677426, 2279952808, 1238578150, 107682552, 913857966, 3747681661, 3560958606, 3617063034, 1988620951, 1854864649, 1862999556, 2962654934, 1498851202, 2003448718, 2942754891, 798789550, 3882536840, 3338815162, 3066948065, 2057094004, 4171611151, 4284063395, 2325690120, 2659914459, 165909127, 2783186990, 2161504072, 343671839, 2751150377, 3621950182, 222528329, 3219381950, 238911006, 2710753737, 2982111755, 1115859074, 156211365, 228231184, 2302165064, 933165355, 4181545713, 2201173365, 291303663, 19134280, 3581811046, 68817880, 1037069880, 2445243929, 2507869609, 1468655994, 2646143627, 2709652242, 559859542, 2657856757, 248278651, 656698256, 2682159578, 3542996035, 2775252812, 1761180115, 3646714856, 2330951878, 834843492, 3951905925, 744286448, 3621804227, 2822882772, 1168938371, 3349647456, 672527398, 1163635478, 3445281068, 722448549, 3543924788, 2823456463, 1931863550, 2483173049, 4148604134, 3081487737, 2916138664, 940193076, 4142650279, 2563327448, 3737140007, 2407111514, 243557343, 1657192483, 3995730323, 1012445178, 2365602253, 2830079959, 2287658550, 2893719730, 2373631903, 4215513121, 189686171, 2003138393, 3410898923, 1020530876, 1103312993, 1976606742, 899447370, 1949555562, 3167671920, 595304244, 1919198655, 2929333298, 619161901, 623498751, 2063591130, 763251111, 4291719204, 3951567013, 2998385089, 758818611, 1375945828, 2510752543, 4188334520, 121785359, 3225750324, 1354685949, 1643999927, 911976986, 518523023, 3993561529, 2326708913, 336174575, 853096604, 2873283550, 4022490143, 3010604384, 2080594943, 1702902668, 3360749048, 4184957279, 2421794725, 4155016765, 3104188113, 1576615579, 604774175, 2739462297, 4096823942, 1932918233, 1779286169, 2544260698, 1430072091, 2196303270, 4237199385, 2613550760, 1481676153, 2920297152, 2463881971, 1098865791, 2939219489, 2494804283, 3108728554, 1635052534, 2905164258]

/-- The array after the 622 wrap-free writes of `init_by_array` loop 1. -/
def mtM1 : List Nat := [19650218, 4287171035, 3185121657, 4122224691, 71202801, 1393620271, 3221843944, 489200522, 1902161718, 2210405944, 195304964, 2801691409, 3793058107, 271434243, 438431017, 3294922893, 162216761, 3854766582, 2402227618, 2169264244, 1701394444, 81885219, 1530043617, 2274948507, 963957372, 1289585243, 1439643070, 3863249990, 3358780067, 321437439, 2908067003, 3195083125, 1159732756, 2231788986, 532395187, 1612779193, 896974339, 3018994860, 3328551699, 3778735612, 4097541637, 1233097880, 3250697748, 3487254742, 2727930344, 4195557878, 4042744008, 867935108, 3808453322, 4165798932, 2016777842, 473588415, 3853673143, 1278735855, 11786007, 1783164735, 2024677529, 1466946962, 2807104056, 1176721291, 4089639837, 2063037275, 2382800351, 3215757323, 4029566817, 2421469556, 3042704713, 1115090124, 1923340269, 2723071899, 2898011294, 1387052596, 353027297, 1878215386, 3864428585, 1706579635, 1967088072, 856276813, 4034403240, 747241542, 1436444024, 4146531166, 2385478034, 1977756396, 1488929623, 1218634497, 3120721805, 2504426860, 1577878238, 4286861623, 1481176475, 2792067141, 1526868316, 1838129117, 3786124017, 2405937968, 3962139392, 1945888549, 1547234995, 3121780222, 2699329120, 3571761959, 271940666, 522958707, 3567658567, 1150023577, 228930948, 2575018104, 4115233382, 1834739875, 3047068825, 3070799990, 2573730072, 960676548, 137679733, 2181915423, 4231055061, 2056032916, 3844911714, 2006962044, 3661668474, 802721144, 3231920425, 4226492229, 2333014084, 4153684680, 968719617, 1062938230, 2772346171, 443292322, 1088425822, 2534628327, 3473633707, 3155569041, 2272858522, 1520104909, 1661178723, 3425911490, 2462260259, 2988264637, 1201091838, 3357646690, 2979913157, 1608494962, 1811669281, 1478628960, 1306152517, 778927772, 83453166, 1040179966, 4050447501, 1068561942, 3531956821, 118306310, 2294571057, 1343134654, 1777928537, 3155039264, 2258790728, 4088669449, 1493212349, 2967471574, 4200446962, 1176852620, 3190220640, 3129542934, 4088998375, 4082677082, 1394518328, 4020709775, 852607840, 1142509410, 1807323512, 1804762249, 3198863533, 3304782988, 1206202438, 3721628816, 4029882515, 4231059481, 1221287202, 178480682, 1626409042, 4176590749, 155552692, 2809130026, 4025640581, 1637482671, 2826664585, 2909836362, 1006768907, 2360057389, 3454231753, 3168478361, 3044280811, 1980867595, 2955526900, 1769061299, 487038506, 342483872, 3031718501, 1784973988, 4155581826, 3400724298, 484374754, 3114563411, 507351482, 692950642, 428835079, 4267042411, 2288870417, 2920516179, 2852566338, 2652785666, 1587912386, 1316354883, 1037515646, 1816355869, 475806094, 365912159, 3205029433, 2558184630, 825921830, 1746740025, 1722197954, 1574266608, 4115667382, 2447732915, 2877319238, 1545225307, 4275025490, 2670818942, 3398699299, 2601097958, 478167934, 3884062694, 2377724242, 780162735, 142939689, 653065065, 4212425751, 1266955191, 791860513, 3235470545, 1728144096, 12690326, 1099512466, 1978978887, 1098967573, 290906003, 2381040604, 3087033993, 3838398934, 919213408, 1940192060, 4181825674, 1234597889, 2691145264, 3382933915, 2800542940, 1628968852, 361048961, 2742950236, 4283010335, 4215425726, 113129139, 3993154258, 3038559531, 2310024375, 838319144, 60440849, 2085468791, 3560796798, 1460479530, 4174925610, 1507099627, 1479766575, 1692917167, 2897875792, 845965285, 1605146685, 617030063, 332998475, 3355570671, 2161463778, 394366139, 3228039340, 3239698834, 373257626, 3421046362, 3356585715, 3471182681, 1929977591, 926287112, 3532288749, 2094357682, 2116969502, 159786581, 872772103, 3160221844, 2185241516, 1718262809, 1914029906, 263732648, 1697605140, 1368615547, 2096534584, 1568880740, 1775477269, 3479007408, 3325277724, 3655812909, 572064686, 793752559, 1273986756, 1134644678, 292692403, 1997666901, 521037191, 3108562023, 148143935, 2033737201, 359471023, 2253210908, 12137020, 3746936876, 29686652, 2536448677, 3073708660, 1570580977, 2394446881, 1394502530, 1387682217, 68963057, 4046508988, 497249043, 2168343018, 1497033756, 3473568992, 599554418, 1008797535, 980372540, 1287294998, 337825748, 969519686, 4186099785, 4153164050, 815677055, 3663960682, 2736229996, 3091763396, 2805732159, 1378872299, 63835045, 1361310565, 1932589339, 1777391924, 546904871, 2794148865, 1274692095, 4037251787, 1089904447, 1289929968, 3532803895, 464066988, 1888342599, 65387943, 1152911246, 2719178002, 2651709026, 3848048718, 653624994, 4131146611, 2402521742, 392767885, 243020005, 4212311773, 2448050431, 2453478858, 1928859941, 1068582018, 4285263534, 2963660954, 2754480003, 3181391511, 2039052459, 1693699263, 2508596171, 1871375959, 2463257244, 3731738945, 2996063110, 593100383, 2803207189, 78484004, 168617947, 550008154, 2912736075, 699368359, 2715781895, 1473072220, 2762646217, 3789964553, 2436230458, 3433950581, 1815546565, 2678940407, 881255218, 3642297178, 94707215, 1879043043, 493173378, 2013863632, 2769290767, 376101769, 1703726865, 2436546297, 1055788348, 2827672220, 4065514524, 1056300206, 2656682136, 2647853590, 964272451, 4272977576, 1516990830, 3827291998, 1587613175, 4179315256, 4282861954, 2511121478, 1790550970, 198541216, 314816291, 3807979442, 3255881037, 3126461571, 3939279223, 1830688956, 2904446557, 3086440998, 2600571883, 548784128, 1442944229, 621382122, 1013396339, 3116621324, 1212088302, 3442633318, 4003120903, 1999954756, 2354496505, 789813700, 2448614497, 321219606, 522139953, 500061799, 3434076690, 4004413233, 3333588337, 3713710082, 2590682938, 584377766, 1587892912, 3564204394, 2882938465, 99817695, 283987237, 3098909489, 3814795673, 1693722022, 3419694640, 558065731, 1830419783, 3616944707, 3697864819, 320588766, 1153910970, 2785711399, 1106863001, 3730210589, 90498898, 4129727692, 987078243, 659723536, 263795406, 1952847011, 1717569219, 2484901116, 3944076903, 2594711997, 1261906119, 1202985328, 4130165964, 2075521492, 3012015969, 350437752, 3216768464, 1662185950, 2458842052, 2231775023, 2432957429, 2281221464, 3890618796, 1258958805, 3185057049, 1846046424, 1190800026, 1636571994, 1942311681, 1315516048, 1947480239, 2360976152, 2555171445, 1880758220, 1046088253, 2535662012, 1447717342, 2145647919, 2425979853, 1867204130, 1493953153, 3025627524, 2579262391, 3275909543, 3649293489, 1442718476, 2261546393, 4204923365, 2855233621, 2485460677, 2255782658, 2740806398, 1852242809, 4119004578, 277584693, 3661714641, 2831428528, 3570308313, 1948937040, 4019732476, 1728330807, 1484301361, 1870518976, 2630730974, 2173573550, 2352472242, 2775014273, 474583721, 3429692380, 335783731, 3259804786, 593758152, 2275153125, 562607723, 1880284364, 1817998312, 553344781, 2962401605, 1672043822, 1595069804, 669852988, 1373223807, 4083062455, 4290334658, 3721120470, 824675057, 3833294497, 3793285498, 3162877823, 3666946199, 2543493733, 2231655731, 3167021178, 2608745489, 3748366423, 2911186445, 2690261265, 2736004988, 3983045841, 945896899, 4053110957, 1755097075, 3626244892, 99153606, 4164446052, 2107742192, 4223324084, 3058031739, 2178769108, 2947663761, 3024647920, 2965236687, 2655297567, 2942205137, 1373715666, 1681196545, 2971014697, 2426894797, 806378661, 4171895656, 3649780212, 3655458272, 51220608, 4131022917, 3512021179, 4160498155, 3692561016, 2400051216, 3333442717, 1196330630, 2211130858, 2745903512, 1858138357, 2623990518, 3170612039, 3454184043, 4199271909, 1143358715, 3739742909, 3854481095, 971911496, 3384269704, 2905164258]

/-- The array at the end of `init_by_array` loop 1 (624 iterations). -/
def mtM3 : List Nat := [1565245975, 534419183, 3185121657, 4122224691, 71202801, 1393620271, 3221843944, 489200522, 1902161718, 2210405944, 195304964, 2801691409, 3793058107, 271434243, 438431017, 3294922893, 162216761, 3854766582, 2402227618, 2169264244, 1701394444, 81885219, 1530043617, 2274948507, 963957372, 1289585243, 1439643070, 3863249990, 3358780067, 321437439, 2908067003, 3195083125, 1159732756, 2231788986, 532395187, 1612779193, 896974339, 3018994860, 3328551699, 3778735612, 4097541637, 1233097880, 3250697748, 3487254742, 2727930344, 4195557878, 4042744008, 867935108, 3808453322, 4165798932, 2016777842, 473588415, 3853673143, 1278735855, 11786007, 1783164735, 2024677529, 1466946962, 2807104056, 1176721291, 4089639837, 2063037275, 2382800351, 3215757323, 4029566817, 2421469556, 3042704713, 1115090124, 1923340269, 2723071899, 2898011294, 1387052596, 353027297, 1878215386, 3864428585, 1706579635, 1967088072, 856276813, 4034403240, 747241542, 1436444024, 4146531166, 2385478034, 1977756396, 1488929623, 1218634497, 3120721805, 2504426860, 1577878238, 4286861623, 1481176475, 2792067141, 1526868316, 1838129117, 3786124017, 2405937968, 3962139392, 1945888549, 1547234995, 3121780222, 2699329120, 3571761959, 271940666, 522958707, 3567658567, 1150023577, 228930948, 2575018104, 4115233382, 1834739875, 3047068825, 3070799990, 2573730072, 960676548, 137679733, 2181915423, 4231055061, 2056032916, 3844911714, 2006962044, 3661668474, 802721144, 3231920425, 4226492229, 2333014084, 4153684680, 968719617, 1062938230, 2772346171, 443292322, 1088425822, 2534628327, 3473633707, 3155569041, 2272858522, 1520104909, 1661178723, 3425911490, 2462260259, 2988264637, 1201091838, 3357646690, 2979913157, 1608494962, 1811669281, 1478628960, 1306152517, 778927772, 83453166, 1040179966, 4050447501, 1068561942, 3531956821, 118306310, 2294571057, 1343134654, 1777928537, 3155039264, 2258790728, 4088669449, 1493212349, 2967471574, 4200446962, 1176852620, 3190220640, 3129542934, 4088998375, 4082677082, 1394518328, 4020709775, 852607840, 1142509410, 1807323512, 1804762249, 3198863533, 3304782988, 1206202438, 3721628816, 4029882515, 4231059481, 1221287202, 178480682, 1626409042, 4176590749, 155552692, 2809130026, 4025640581, 1637482671, 2826664585, 2909836362, 1006768907, 2360057389, 3454231753, 3168478361, 3044280811, 1980867595, 2955526900, 1769061299, 487038506, 342483872, 3031718501, 1784973988, 4155581826, 3400724298, 484374754, 3114563411, 507351482, 692950642, 428835079, 4267042411, 2288870417, 2920516179, 2852566338, 2652785666, 1587912386, 1316354883, 1037515646, 1816355869, 475806094, 365912159, 3205029433, 2558184630, 825921830, 1746740025, 1722197954, 1574266608, 4115667382, 2447732915, 2877319238, 1545225307, 4275025490, 2670818942, 3398699299, 2601097958, 478167934, 3884062694, 2377724242, 780162735, 142939689, 653065065, 4212425751, 1266955191, 791860513, 3235470545, 1728144096, 12690326, 1099512466, 1978978887, 1098967573, 290906003, 2381040604, 3087033993, 3838398934, 919213408, 1940192060, 4181825674, 1234597889, 2691145264, 3382933915, 2800542940, 1628968852, 361048961, 2742950236, 4283010335, 4215425726, 113129139, 3993154258, 3038559531, 2310024375, 838319144, 60440849, 2085468791, 3560796798, 1460479530, 4174925610, 1507099627, 1479766575, 1692917167, 2897875792, 845965285, 1605146685, 617030063, 332998475, 3355570671, 2161463778, 394366139, 3228039340, 3239698834, 373257626, 3421046362, 3356585715, 3471182681, 1929977591, 926287112, 3532288749, 2094357682, 2116969502, 159786581, 872772103, 3160221844, 2185241516, 1718262809, 1914029906, 263732648, 1697605140, 1368615547, 2096534584, 1568880740, 1775477269, 3479007408, 3325277724, 3655812909, 572064686, 793752559, 1273986756, 1134644678, 292692403, 1997666901, 521037191, 3108562023, 148143935, 2033737201, 359471023, 2253210908, 12137020, 3746936876, 29686652, 2536448677, 3073708660, 1570580977, 2394446881, 1394502530, 1387682217, 68963057, 4046508988, 497249043, 2168343018, 1497033756, 3473568992, 599554418, 1008797535, 980372540, 1287294998, 337825748, 969519686, 4186099785, 4153164050, 815677055, 3663960682, 2736229996, 3091763396, 2805732159, 1378872299, 63835045, 1361310565, 1932589339, 1777391924, 546904871, 2794148865, 1274692095, 4037251787, 1089904447, 1289929968, 3532803895, 464066988, 1888342599, 65387943, 1152911246, 2719178002, 2651709026, 3848048718, 653624994, 4131146611, 2402521742, 392767885, 243020005, 4212311773, 2448050431, 2453478858, 1928859941, 1068582018, 4285263534, 2963660954, 2754480003, 3181391511, 2039052459, 1693699263, 2508596171, 1871375959, 2463257244, 3731738945, 2996063110, 593100383, 2803207189, 78484004, 168617947, 550008154, 2912736075, 699368359, 2715781895, 1473072220, 2762646217, 3789964553, 2436230458, 3433950581, 1815546565, 2678940407, 881255218, 3642297178, 94707215, 1879043043, 493173378, 2013863632, 2769290767, 376101769, 1703726865, 2436546297, 1055788348, 2827672220, 4065514524, 1056300206, 2656682136, 2647853590, 964272451, 4272977576, 1516990830, 3827291998, 1587613175, 4179315256, 4282861954, 2511121478, 1790550970, 198541216, 314816291, 3807979442, 3255881037, 3126461571, 3939279223, 1830688956, 2904446557, 3086440998, 2600571883, 548784128, 1442944229, 621382122, 1013396339, 3116621324, 1212088302, 3442633318, 4003120903, 1999954756, 2354496505, 789813700, 2448614497, 321219606, 522139953, 500061799, 3434076690, 4004413233, 3333588337, 3713710082, 2590682938, 584377766, 1587892912, 3564204394, 2882938465, 99817695, 283987237, 3098909489, 3814795673, 1693722022, 3419694640, 558065731, 1830419783, 3616944707, 3697864819, 320588766, 1153910970, 2785711399, 1106863001, 3730210589, 90498898, 4129727692, 987078243, 659723536, 263795406, 1952847011, 1717569219, 2484901116, 3944076903, 2594711997, 1261906119, 1202985328, 4130165964, 2075521492, 3012015969, 350437752, 3216768464, 1662185950, 2458842052, 2231775023, 2432957429, 2281221464, 3890618796, 1258958805, 3185057049, 1846046424, 1190800026, 1636571994, 1942311681, 1315516048, 1947480239, 2360976152, 2555171445, 1880758220, 1046088253, 2535662012, 1447717342, 2145647919, 2425979853, 1867204130, 1493953153, 3025627524, 2579262391, 3275909543, 3649293489, 1442718476, 2261546393, 4204923365, 2855233621, 2485460677, 2255782658, 2740806398, 1852242809, 4119004578, 277584693, 3661714641, 2831428528, 3570308313, 1948937040, 4019732476, 1728330807, 1484301361, 1870518976, 2630730974, 2173573550, 2352472242, 2775014273, 474583721, 3429692380, 335783731, 3259804786, 593758152, 2275153125, 562607723, 1880284364, 1817998312, 553344781, 2962401605, 1672043822, 1595069804, 669852988, 1373223807, 4083062455, 4290334658, 3721120470, 824675057, 3833294497, 3793285498, 3162877823, 3666946199, 2543493733, 2231655731, 3167021178, 2608745489, 3748366423, 2911186445, 2690261265, 2736004988, 3983045841, 945896899, 4053110957, 1755097075, 3626244892, 99153606, 4164446052, 2107742192, 4223324084, 3058031739, 2178769108, 2947663761, 3024647920, 2965236687, 2655297567, 2942205137, 1373715666, 1681196545, 2971014697, 2426894797, 806378661, 4171895656, 3649780212, 3655458272, 51220608, 4131022917, 3512021179, 4160498155, 3692561016, 2400051216, 3333442717, 1196330630, 2211130858, 2745903512, 1858138357, 2623990518, 3170612039, 3454184043, 4199271909, 1143358715, 3739742909, 3854481095, 971911496, 3384269704, 1565245975]

/-- The array after the 621 wrap-free writes of `init_by_array` loop 2. -/
def mtN1 : List Nat := [1565245975, 534419183, 1266698288, 4212342371, 3595291661, 3180588708, 3037210256, 946923017, 2565409715, 2900535780, 924383152, 4180157270, 4230508198, 2039675917, 3755350407, 2362848650, 2818100609, 2097423432, 524478045, 540883378, 281170210, 1485176884, 1493190386, 1773214509, 380915208, 3667698522, 2648371337, 2961234806, 3857480267, 1582950522, 246289694, 3322185604, 1944574775, 302623699, 169865066, 1143540808, 3733177770, 513116636, 1411153081, 3205493053, 768926902, 549624109, 1470655403, 59539609, 3678480009, 3087139671, 1176835859, 2078491503, 2299934332, 1592059249, 1062716176, 2654193596, 3531838733, 2661260596, 3881209635, 2106865768, 4154287292, 2082185616, 2301197011, 2177349827, 3082181756, 1787663536, 3714670796, 3018262113, 1670056238, 1856738750, 99824592, 2279837081, 1414647942, 3416675731, 3458782472, 3997022236, 468762002, 2666158583, 953353270, 1788980658, 3802061067, 407586584, 1844776834, 1906917274, 3154715663, 3028370222, 4156024188, 3996363428, 80495456, 2659800972, 2005649973, 3818358673, 3952623596, 2506862371, 3282302532, 263923435, 3384662671, 3292439172, 3119957588, 1224426111, 899864150, 215262826, 1619647231, 3347694949, 3497868538, 2029552053, 2992804824, 4080010250, 2023513186, 1885979437, 3564622190, 3775424270, 2297810139, 3549449169, 2664856277, 3274801974, 2794883969, 980412666, 2980215653, 2794389321, 2816521934, 1266970739, 542306338, 3646225311, 3598997630, 2111980720, 2949252482, 2489027658, 352815024, 11610683, 1386663624, 2004196796, 1161461546, 1921293780, 2463949525, 1647009713, 3550093655, 2563894064, 3486310554, 1506105865, 243092931, 2659437476, 4200687059, 2284345122, 1974438610, 3591096528, 967119212, 3362401375, 140678365, 311602112, 2361740275, 2139598582, 3632873481, 2762232439, 4156482318, 381637792, 3253346525, 2492118775, 1502434558, 3164497290, 3550998357, 2412448305, 2223955385, 4122879535, 350121793, 1835149778, 2175117867, 989674750, 3178241202, 3553093569, 3470650311, 2829698151, 3209427769, 1779174943, 275388428, 4044574515, 715447260, 3180940440, 4020772289, 1322708567, 3189868792, 4250485633, 716970023, 2307550151, 1074996711, 1217573599, 197006094, 2178394212, 1255233746, 4164251484, 1405608772, 2808160475, 1304736088, 1796071066, 2761748078, 3570739698, 1616118556, 2232868135, 3567541936, 3470600401, 3031621994, 3351764214, 1359785149, 2617497797, 3340028190, 356162828, 2083806068, 2503635608, 4024838996, 2577080371, 2897993505, 3120733934, 905794891, 2506078507, 4211618666, 3777871979, 809751414, 4080874167, 1562977008, 3917373055, 2132779194, 4014249473, 4067327082, 2582869847, 1780081876, 1842619106, 3381761227, 921004274, 1393256920, 1883566732, 2702071861, 865327389, 1622085203, 3021825820, 2687061406, 1748902923, 689023977, 308399650, 2377287978, 1646969411, 1051806316, 4277884230, 2041056290, 101134519, 2032472116, 4112521069, 151202901, 2773743461, 551348559, 3476836808, 510935951, 625057077, 3757450756, 2977698135, 3027776859, 2616998041, 2773430005, 544190486, 2241368212, 1141105829, 1452816309, 4199229235, 3218013033, 4229475816, 1659576351, 3020348754, 1193400518, 3208584597, 1151197733, 2597187966, 503065140, 2421841572, 1437291709, 1909275895, 2872630545, 793588217, 3792934707, 1784451785, 2921385648, 1669902526, 4189978976, 1196986251, 434805516, 1907541826, 2624415034, 1687778718, 650746582, 1949153382, 4148493093, 841300520, 1164202054, 4203468658, 4106300911, 850346789, 1715730760, 3114661489, 2866524548, 1360448945, 3601318775, 1743078223, 2413855408, 1211895622, 325117146, 2721152875, 1284334485, 2446538832, 739014618, 2237045115, 842553465, 2538598293, 746460793, 4010387366, 2002655192, 4193733112, 1194380773, 3918217378, 1447487475, 5659228, 3408847694, 4190318700, 1862549564, 781683719, 1194618118, 755053413, 3436011942, 2885435303, 3081151348, 2017642831, 1053816502, 1086627485, 2157296554, 110650022, 965352898, 1003174194, 1288956241, 4057404871, 2965068465, 2897064481, 2457377317, 1879872545, 358455290, 375086701, 3015902095, 1676249984, 924455526, 2084169389, 1989014644, 1993749926, 2009424973, 2113340508, 3980883273, 2915977458, 203328382, 3020815229, 2415050113, 4103009585, 3700885489, 2916647550, 1523006503, 174302338, 2476909338, 1969322490, 4285741984, 1528449097, 3355315515, 4217241278, 599579127, 2572243673, 3035856735, 1539140489, 1782314913, 4238644287, 1746424142, 1978148312, 2380746849, 184941882, 1106717981, 1720750349, 981701307, 3953154731, 3257809181, 2892339376, 3339778166, 3676936849, 87425948, 3029257381, 2037942523, 3807628706, 2861474706, 1058852346, 1322765211, 2686046342, 2689342655, 2303436168, 2571627181, 1986057734, 1183564308, 2829677523, 1295563975, 503126586, 2025890348, 4179277821, 1735262467, 981331774, 1613447066, 1011606109, 2000062246, 3581448390, 3477731384, 3641307373, 3508544379, 2327233491, 3931944343, 4189052882, 2990416380, 422406169, 202291313, 2531006461, 4277024116, 3815144003, 821314585, 1344175168, 3562834071, 1339615445, 1831545190, 3115548822, 743512780, 4006999448, 3720181735, 1012033521, 919931041, 2628967879, 1151876565, 1268107129, 3674829936, 834977846, 743987006, 3947536548, 3706529695, 4121073678, 2507605742, 1595636918, 2708047833, 2427507331, 3868216331, 3254240010, 2097683411, 3279710596, 3686819053, 1843541720, 1683793619, 3245287285, 3571828776, 3733296431, 3806747478, 1390930605, 3860422228, 114397037, 1931519825, 2770684378, 1556101783, 1436111731, 4031950081, 562876656, 1775895782, 612364620, 1313509772, 4283410242, 3252958463, 2176555836, 3933073367, 3013277102, 1444071961, 3120949516, 2824578890, 325676929, 943677134, 1800649256, 1721927060, 347498719, 1435221321, 2623572981, 1408548470, 4145586315, 2901889237, 1849377952, 1239144551, 3382598266, 2992893897, 3738297588, 611280106, 3897415338, 2370299241, 1772308583, 3697465753, 354508058, 2702360134, 591308331, 3524072501, 976616000, 2563717192, 3078266097, 1376594703, 4209795919, 2454412767, 2712206031, 2963860163, 3734324882, 2248653800, 324872786, 3789837448, 3779000146, 527733939, 2844165793, 576499681, 1618787435, 2638888650, 57511068, 2804627518, 2993670030, 481402236, 2810124845, 1416045214, 1723694191, 1214944572, 3188123783, 1139185907, 3851015362, 1719652470, 1661343029, 3644307578, 3564178709, 1256656955, 46631590, 4231317929, 3098958589, 1834956625, 2206185428, 3695688374, 3647957317, 1064098871, 1739100906, 2579568980, 27974051, 2617466775, 964075233, 907049942, 4164146575, 3377168066, 2524828266, 1083546008, 2992960953, 2260789066, 1543742095, 2843842831, 1375722284, 3574521313, 110842534, 2310998251, 3076511734, 783145600, 1287776608, 3087144146, 305559823, 2356293719, 3228441476, 1678938122, 3775814061, 1620283952, 2512027726, 1031432407, 962295099, 3877418501, 968669928, 304126693, 3711291137, 3847527101, 494066767, 4050229756, 4169448589, 671763915, 1095747781, 4006132710, 394725957, 200521654, 2715998750, 1477567673, 895171901, 3370105999, 2684157455, 4153990023, 3966076501, 2043374409, 144443759, 6764556, 1611650045, 1480956755, 1388276468, 4136518438, 1538041336, 266773992, 1623357516, 2267298390, 3183919402, 1084292424, 2796136160, 2413448816, 2850375199, 3510894040, 2644778623, 3317288284, 3697317540, 1465776787, 1843489446, 1416711171, 744701117, 1286781349, 3748640476, 861982119, 2377742909, 1171768136, 2701877439, 3839724288, 2869791015, 2386067954, 2629214347, 955801623, 1565245975]

/-- The array at the end of `init_by_array` loop 2 (623 iterations). -/
def mtN3 : List Nat := [3831079317, 3564348608, 1266698288, 4212342371, 3595291661, 3180588708, 3037210256, 946923017, 2565409715, 2900535780, 924383152, 4180157270, 4230508198, 2039675917, 3755350407, 2362848650, 2818100609, 2097423432, 524478045, 540883378, 281170210, 1485176884, 1493190386, 1773214509, 380915208, 3667698522, 2648371337, 2961234806, 3857480267, 1582950522, 246289694, 3322185604, 1944574775, 302623699, 169865066, 1143540808, 3733177770, 513116636, 1411153081, 3205493053, 768926902, 549624109, 1470655403, 59539609, 3678480009, 3087139671, 1176835859, 2078491503, 2299934332, 1592059249, 1062716176, 2654193596, 3531838733, 2661260596, 3881209635, 2106865768, 4154287292, 2082185616, 2301197011, 2177349827, 3082181756, 1787663536, 3714670796, 3018262113, 1670056238, 1856738750, 99824592, 2279837081, 1414647942, 3416675731, 3458782472, 3997022236, 468762002, 2666158583, 953353270, 1788980658, 3802061067, 407586584, 1844776834, 1906917274, 3154715663, 3028370222, 4156024188, 3996363428, 80495456, 2659800972, 2005649973, 3818358673, 3952623596, 2506862371, 3282302532, 263923435, 3384662671, 3292439172, 3119957588, 1224426111, 899864150, 215262826, 1619647231, 3347694949, 3497868538, 2029552053, 2992804824, 4080010250, 2023513186, 1885979437, 3564622190, 3775424270, 2297810139, 3549449169, 2664856277, 3274801974, 2794883969, 980412666, 2980215653, 2794389321, 2816521934, 1266970739, 542306338, 3646225311, 3598997630, 2111980720, 2949252482, 2489027658, 352815024, 11610683, 1386663624, 2004196796, 1161461546, 1921293780, 2463949525, 1647009713, 3550093655, 2563894064, 3486310554, 1506105865, 243092931, 2659437476, 4200687059, 2284345122, 1974438610, 3591096528, 967119212, 3362401375, 140678365, 311602112, 2361740275, 2139598582, 3632873481, 2762232439, 4156482318, 381637792, 3253346525, 2492118775, 1502434558, 3164497290, 3550998357, 2412448305, 2223955385, 4122879535, 350121793, 1835149778, 2175117867, 989674750, 3178241202, 3553093569, 3470650311, 2829698151, 3209427769, 1779174943, 275388428, 4044574515, 715447260, 3180940440, 4020772289, 1322708567, 3189868792, 4250485633, 716970023, 2307550151, 1074996711, 1217573599, 197006094, 2178394212, 1255233746, 4164251484, 1405608772, 2808160475, 1304736088, 1796071066, 2761748078, 3570739698, 1616118556, 2232868135, 3567541936, 3470600401, 3031621994, 3351764214, 1359785149, 2617497797, 3340028190, 356162828, 2083806068, 2503635608, 4024838996, 2577080371, 2897993505, 3120733934, 905794891, 2506078507, 4211618666, 3777871979, 809751414, 4080874167, 1562977008, 3917373055, 2132779194, 4014249473, 4067327082, 2582869847, 1780081876, 1842619106, 3381761227, 921004274, 1393256920, 1883566732, 2702071861, 865327389, 1622085203, 3021825820, 2687061406, 1748902923, 689023977, 308399650, 2377287978, 1646969411, 1051806316, 4277884230, 2041056290, 101134519, 2032472116, 4112521069, 151202901, 2773743461, 551348559, 3476836808, 510935951, 625057077, 3757450756, 2977698135, 3027776859, 2616998041, 2773430005, 544190486, 2241368212, 1141105829, 1452816309, 4199229235, 3218013033, 4229475816, 1659576351, 3020348754, 1193400518, 3208584597, 1151197733, 2597187966, 503065140, 2421841572, 1437291709, 1909275895, 2872630545, 793588217, 3792934707, 1784451785, 2921385648, 1669902526, 4189978976, 1196986251, 434805516, 1907541826, 2624415034, 1687778718, 650746582, 1949153382, 4148493093, 841300520, 1164202054, 4203468658, 4106300911, 850346789, 1715730760, 3114661489, 2866524548, 1360448945, 3601318775, 1743078223, 2413855408, 1211895622, 325117146, 2721152875, 1284334485, 2446538832, 739014618, 2237045115, 842553465, 2538598293, 746460793, 4010387366, 2002655192, 4193733112, 1194380773, 3918217378, 1447487475, 5659228, 3408847694, 4190318700, 1862549564, 781683719, 1194618118, 755053413, 3436011942, 2885435303, 3081151348, 2017642831, 1053816502, 1086627485, 2157296554, 110650022, 965352898, 1003174194, 1288956241, 4057404871, 2965068465, 2897064481, 2457377317, 1879872545, 358455290, 375086701, 3015902095, 1676249984, 924455526, 2084169389, 1989014644, 1993749926, 2009424973, 2113340508, 3980883273, 2915977458, 203328382, 3020815229, 2415050113, 4103009585, 3700885489, 2916647550, 1523006503, 174302338, 2476909338, 1969322490, 4285741984, 1528449097, 3355315515, 4217241278, 599579127, 2572243673, 3035856735, 1539140489, 1782314913, 4238644287, 1746424142, 1978148312, 2380746849, 184941882, 1106717981, 1720750349, 981701307, 3953154731, 3257809181, 2892339376, 3339778166, 3676936849, 87425948, 3029257381, 2037942523, 3807628706, 2861474706, 1058852346, 1322765211, 2686046342, 2689342655, 2303436168, 2571627181, 1986057734, 1183564308, 2829677523, 1295563975, 503126586, 2025890348, 4179277821, 1735262467, 981331774, 1613447066, 1011606109, 2000062246, 3581448390, 3477731384, 3641307373, 3508544379, 2327233491, 3931944343, 4189052882, 2990416380, 422406169, 202291313, 2531006461, 4277024116, 3815144003, 821314585, 1344175168, 3562834071, 1339615445, 1831545190, 3115548822, 743512780, 4006999448, 3720181735, 1012033521, 919931041, 2628967879, 1151876565, 1268107129, 3674829936, 834977846, 743987006, 3947536548, 3706529695, 4121073678, 2507605742, 1595636918, 2708047833, 2427507331, 3868216331, 3254240010, 2097683411, 3279710596, 3686819053, 1843541720, 1683793619, 3245287285, 3571828776, 3733296431, 3806747478, 1390930605, 3860422228, 114397037, 1931519825, 2770684378, 1556101783, 1436111731, 4031950081, 562876656, 1775895782, 612364620, 1313509772, 4283410242, 3252958463, 2176555836, 3933073367, 3013277102, 1444071961, 3120949516, 2824578890, 325676929, 943677134, 1800649256, 1721927060, 347498719, 1435221321, 2623572981, 1408548470, 4145586315, 2901889237, 1849377952, 1239144551, 3382598266, 2992893897, 3738297588, 611280106, 3897415338, 2370299241, 1772308583, 3697465753, 354508058, 2702360134, 591308331, 3524072501, 976616000, 2563717192, 3078266097, 1376594703, 4209795919, 2454412767, 2712206031, 2963860163, 3734324882, 2248653800, 324872786, 3789837448, 3779000146, 527733939, 2844165793, 576499681, 1618787435, 2638888650, 57511068, 2804627518, 2993670030, 481402236, 2810124845, 1416045214, 1723694191, 1214944572, 3188123783, 1139185907, 3851015362, 1719652470, 1661343029, 3644307578, 3564178709, 1256656955, 46631590, 4231317929, 3098958589, 1834956625, 2206185428, 3695688374, 3647957317, 1064098871, 1739100906, 2579568980, 27974051, 2617466775, 964075233, 907049942, 4164146575, 3377168066, 2524828266, 1083546008, 2992960953, 2260789066, 1543742095, 2843842831, 1375722284, 3574521313, 110842534, 2310998251, 3076511734, 783145600, 1287776608, 3087144146, 305559823, 2356293719, 3228441476, 1678938122, 3775814061, 1620283952, 2512027726, 1031432407, 962295099, 3877418501, 968669928, 304126693, 3711291137, 3847527101, 494066767, 4050229756, 4169448589, 671763915, 1095747781, 4006132710, 394725957, 200521654, 2715998750, 1477567673, 895171901, 3370105999, 2684157455, 4153990023, 3966076501, 2043374409, 144443759, 6764556, 1611650045, 1480956755, 1388276468, 4136518438, 1538041336, 266773992, 1623357516, 2267298390, 3183919402, 1084292424, 2796136160, 2413448816, 2850375199, 3510894040, 2644778623, 3317288284, 3697317540, 1465776787, 1843489446, 1416711171, 744701117, 1286781349, 3748640476, 861982119, 2377742909, 1171768136, 2701877439, 3839724288, 2869791015, 2386067954, 2629214347, 955801623, 3831079317]

/-- The MT19937 word array of `random.Random(42)` right after seeding. -/
def mtS : List Nat := [2147483648, 3564348608, 1266698288, 4212342371, 3595291661, 3180588708, 3037210256, 946923017, 2565409715, 2900535780, 924383152, 4180157270, 4230508198, 2039675917, 3755350407, 2362848650, 2818100609, 2097423432, 524478045, 540883378, 281170210, 1485176884, 1493190386, 1773214509, 380915208, 3667698522, 2648371337, 2961234806, 3857480267, 1582950522, 246289694, 3322185604, 1944574775, 302623699, 169865066, 1143540808, 3733177770, 513116636, 1411153081, 3205493053, 768926902, 549624109, 1470655403, 59539609, 3678480009, 3087139671, 1176835859, 2078491503, 2299934332, 1592059249, 1062716176, 2654193596, 3531838733, 2661260596, 3881209635, 2106865768, 4154287292, 2082185616, 2301197011, 2177349827, 3082181756, 1787663536, 3714670796, 3018262113, 1670056238, 1856738750, 99824592, 2279837081, 1414647942, 3416675731, 3458782472, 3997022236, 468762002, 2666158583, 953353270, 1788980658, 3802061067, 407586584, 1844776834, 1906917274, 3154715663, 3028370222, 4156024188, 3996363428, 80495456, 2659800972, 2005649973, 3818358673, 3952623596, 2506862371, 3282302532, 263923435, 3384662671, 3292439172, 3119957588, 1224426111, 899864150, 215262826, 1619647231, 3347694949, 3497868538, 2029552053, 2992804824, 4080010250, 2023513186, 1885979437, 3564622190, 3775424270, 2297810139, 3549449169, 2664856277, 3274801974, 2794883969, 980412666, 2980215653, 2794389321, 2816521934, 1266970739, 542306338, 3646225311, 3598997630, 2111980720, 2949252482, 2489027658, 352815024, 11610683, 1386663624, 2004196796, 1161461546, 1921293780, 2463949525, 1647009713, 3550093655, 2563894064, 3486310554, 1506105865, 243092931, 2659437476, 4200687059, 2284345122, 1974438610, 3591096528, 967119212, 3362401375, 140678365, 311602112, 2361740275, 2139598582, 3632873481, 2762232439, 4156482318, 381637792, 3253346525, 2492118775, 1502434558, 3164497290, 3550998357, 2412448305, 2223955385, 4122879535, 350121793, 1835149778, 2175117867, 989674750, 3178241202, 3553093569, 3470650311, 2829698151, 3209427769, 1779174943, 275388428, 4044574515, 715447260, 3180940440, 4020772289, 1322708567, 3189868792, 4250485633, 716970023, 2307550151, 1074996711, 1217573599, 197006094, 2178394212, 1255233746, 4164251484, 1405608772, 2808160475, 1304736088, 1796071066, 2761748078, 3570739698, 1616118556, 2232868135, 3567541936, 3470600401, 3031621994, 3351764214, 1359785149, 2617497797, 3340028190, 356162828, 2083806068, 2503635608, 4024838996, 2577080371, 2897993505, 3120733934, 905794891, 2506078507, 4211618666, 3777871979, 809751414, 4080874167, 1562977008, 3917373055, 2132779194, 4014249473, 4067327082, 2582869847, 1780081876, 1842619106, 3381761227, 921004274, 1393256920, 1883566732, 2702071861, 865327389, 1622085203, 3021825820, 2687061406, 1748902923, 689023977, 308399650, 2377287978, 1646969411, 1051806316, 4277884230, 2041056290, 101134519, 2032472116, 4112521069, 151202901, 2773743461, 551348559, 3476836808, 510935951, 625057077, 3757450756, 2977698135, 3027776859, 2616998041, 2773430005, 544190486, 2241368212, 1141105829, 1452816309, 4199229235, 3218013033, 4229475816, 1659576351, 3020348754, 1193400518, 3208584597, 1151197733, 2597187966, 503065140, 2421841572, 1437291709, 1909275895, 2872630545, 793588217, 3792934707, 1784451785, 2921385648, 1669902526, 4189978976, 1196986251, 434805516, 1907541826, 2624415034, 1687778718, 650746582, 1949153382, 4148493093, 841300520, 1164202054, 4203468658, 4106300911, 850346789, 1715730760, 3114661489, 2866524548, 1360448945, 3601318775, 1743078223, 2413855408, 1211895622, 325117146, 2721152875, 1284334485, 2446538832, 739014618, 2237045115, 842553465, 2538598293, 746460793, 4010387366, 2002655192, 4193733112, 1194380773, 3918217378, 1447487475, 5659228, 3408847694, 4190318700, 1862549564, 781683719, 1194618118, 755053413, 3436011942, 2885435303, 3081151348, 2017642831, 1053816502, 1086627485, 2157296554, 110650022, 965352898, 1003174194, 1288956241, 4057404871, 2965068465, 2897064481, 2457377317, 1879872545, 358455290, 375086701, 3015902095, 1676249984, 924455526, 2084169389, 1989014644, 1993749926, 2009424973, 2113340508, 3980883273, 2915977458, 203328382, 3020815229, 2415050113, 4103009585, 3700885489, 2916647550, 1523006503, 174302338, 2476909338, 1969322490, 4285741984, 1528449097, 3355315515, 4217241278, 599579127, 2572243673, 3035856735, 1539140489, 1782314913, 4238644287, 1746424142, 1978148312, 2380746849, 184941882, 1106717981, 1720750349, 981701307, 3953154731, 3257809181, 2892339376, 3339778166, 3676936849, 87425948, 3029257381, 2037942523, 3807628706, 2861474706, 1058852346, 1322765211, 2686046342, 2689342655, 2303436168, 2571627181, 1986057734, 1183564308, 2829677523, 1295563975, 503126586, 2025890348, 4179277821, 1735262467, 981331774, 1613447066, 1011606109, 2000062246, 3581448390, 3477731384, 3641307373, 3508544379, 2327233491, 3931944343, 4189052882, 2990416380, 422406169, 202291313, 2531006461, 4277024116, 3815144003, 821314585, 1344175168, 3562834071, 1339615445, 1831545190, 3115548822, 743512780, 4006999448, 3720181735, 1012033521, 919931041, 2628967879, 1151876565, 1268107129, 3674829936, 834977846, 743987006, 3947536548, 3706529695, 4121073678, 2507605742, 1595636918, 2708047833, 2427507331, 3868216331, 3254240010, 2097683411, 3279710596, 3686819053, 1843541720, 1683793619, 3245287285, 3571828776, 3733296431, 3806747478, 1390930605, 3860422228, 114397037, 1931519825, 2770684378, 1556101783, 1436111731, 4031950081, 562876656, 1775895782, 612364620, 1313509772, 4283410242, 3252958463, 2176555836, 3933073367, 3013277102, 1444071961, 3120949516, 2824578890, 325676929, 943677134, 1800649256, 1721927060, 347498719, 1435221321, 2623572981, 1408548470, 4145586315, 2901889237, 1849377952, 1239144551, 3382598266, 2992893897, 3738297588, 611280106, 3897415338, 2370299241, 1772308583, 3697465753, 354508058, 2702360134, 591308331, 3524072501, 976616000, 2563717192, 3078266097, 1376594703, 4209795919, 2454412767, 2712206031, 2963860163, 3734324882, 2248653800, 324872786, 3789837448, 3779000146, 527733939, 2844165793, 576499681, 1618787435, 2638888650, 57511068, 2804627518, 2993670030, 481402236, 2810124845, 1416045214, 1723694191, 1214944572, 3188123783, 1139185907, 3851015362, 1719652470, 1661343029, 3644307578, 3564178709, 1256656955, 46631590, 4231317929, 3098958589, 1834956625, 2206185428, 3695688374, 3647957317, 1064098871, 1739100906, 2579568980, 27974051, 2617466775, 964075233, 907049942, 4164146575, 3377168066, 2524828266, 1083546008, 2992960953, 2260789066, 1543742095, 2843842831, 1375722284, 3574521313, 110842534, 2310998251, 3076511734, 783145600, 1287776608, 3087144146, 305559823, 2356293719, 3228441476, 1678938122, 3775814061, 1620283952, 2512027726, 1031432407, 962295099, 3877418501, 968669928, 304126693, 3711291137, 3847527101, 494066767, 4050229756, 4169448589, 671763915, 1095747781, 4006132710, 394725957, 200521654, 2715998750, 1477567673, 895171901, 3370105999, 2684157455, 4153990023, 3966076501, 2043374409, 144443759, 6764556, 1611650045, 1480956755, 1388276468, 4136518438, 1538041336, 266773992, 1623357516, 2267298390, 3183919402, 1084292424, 2796136160, 2413448816, 2850375199, 3510894040, 2644778623, 3317288284, 3697317540, 1465776787, 1843489446, 1416711171, 744701117, 1286781349, 3748640476, 861982119, 2377742909, 1171768136, 2701877439, 3839724288, 2869791015, 2386067954, 2629214347, 955801623, 3831079317]

/-- The word array after the first twist of the `random.Random(42)` state. -/
def mtT : List Nat := [2468570525, 44967195, 2667364560, 2449893699, 1652692239, 766678126, 273175325, 1513475390, 2407048223, 2326550691, 3055735416, 2487780036, 476975371, 81632736, 1598452444, 3338301038, 3898475993, 1749546629, 4084786842, 949316744, 2086501466, 4175211502, 3792229788, 1718685282, 2499662139, 4222931543, 3063257123, 910424605, 1400804300, 830603822, 3216023045, 2756927633, 3684278863, 3724968901, 332416530, 52016619, 2751489098, 1877715228, 1932382287, 3281876149, 3597828351, 330629843, 142483984, 1379430288, 83784318, 2266112133, 1736800492, 3746267091, 2610492607, 2079803227, 3463890091, 615297649, 2445958069, 138783768, 741209753, 3721915402, 2027708325, 4005341927, 2093884772, 119215273, 551524651, 3739622759, 3782730527, 404717681, 321534867, 1286801508, 1706479953, 2882329788, 1029701930, 2373551443, 3296995744, 468358352, 746091816, 4096927057, 641317208, 2423816852, 662051236, 1347945045, 744683282, 3532103569, 3323996770, 674188488, 2147579353, 4002509157, 1635774310, 2870381986, 1633495405, 3350196287, 225215418, 1170120648, 915993856, 814856433, 196876581, 2157558451, 3897838842, 3150173549, 626324766, 2067876245, 2163845165, 4042368565, 1376677108, 1262248675, 2205442378, 3993334766, 9743238, 2593325684, 2920379669, 1534455130, 3818766181, 931649853, 2158376649, 3577176492, 4105269980, 2743411340, 2855498512, 3468322221, 4289135738, 3070378031, 130878110, 2012459331, 3649976437, 1132601439, 747682378, 48846564, 660000069, 1790312343, 3727890972, 1155723235, 1514429407, 1230076367, 1013715474, 4196577359, 1320124222, 2614278628, 1297893158, 4083753327, 2352894470, 947894400, 2642100948, 1169889630, 1286436482, 3306394082, 3164045139, 1094362406, 809487105, 2843373296, 2280653556, 2080861721, 1562856334, 994764831, 4181417961, 1060980731, 2404272427, 3309777776, 1336994281, 634755732, 3631638369, 1391515368, 1418228798, 4257897983, 2054225289, 567832856, 1330177904, 2462727694, 814045371, 2591348022, 743574337, 2789138291, 2041853854, 894395601, 2564448893, 2991512555, 661658788, 4244382938, 592840949, 4198784705, 4208381264, 1027548464, 1699297713, 3507187687, 4228784501, 3944198753, 393010807, 1855658975, 2650303920, 837948699, 3219332495, 2923291683, 2860126530, 3856051376, 2249134764, 165767879, 2468337443, 1781864276, 2657744714, 35449830, 828146831, 117482919, 3433429317, 1819066727, 710883018, 3107854316, 3076257894, 928245986, 1936492070, 1083117887, 4108585320, 313911202, 235106869, 3091059945, 905889358, 259789608, 3447145250, 988142971, 2178196317, 859662840, 1908755715, 1247277970, 1481142601, 819671330, 2548134350, 1495134650, 4034870622, 2814194974, 2761218509, 2977430738, 614006212, 981226091, 413177493, 3471336991, 2131872665, 4009914404, 612529023, 378607496, 2988973248, 2418016553, 3050435072, 3405173865, 239315520, 553425169, 2806326921, 2194625577, 1297818883, 557367713, 1339678305, 625637250, 3007124173, 1403416408, 963253146, 557613038, 2995233521, 1599272606, 2877491804, 3025784937, 3444226192, 3778689225, 2511282536, 2036290414, 3663672933, 870613663, 3288722796, 1883286129, 2240711678, 1598432647, 1653428643, 1037288789, 3417332711, 632265342, 2992319607, 2229992519, 2627094451, 2902395192, 1798625598, 1888821172, 2928617356, 2806510607, 2169745473, 3263400237, 477483472, 2684152104, 2047416023, 1061764082, 3888197689, 3665203944, 3081648115, 1585188167, 979304208, 3283599107, 515443754, 3528859579, 2646985622, 1179116369, 3174096483, 3622666293, 1094110660, 982532210, 3915875056, 3442760653, 2482674618, 3543561277, 4242258297, 1883210421, 198934262, 3881993543, 3270985024, 3814018289, 3842198594, 3180274062, 349497396, 2056365044, 3662991668, 2471767104, 2872942732, 1154111690, 3142477833, 2062459812, 3422415124, 352502659, 3206123932, 769305078, 1282348479, 3011976512, 1592394005, 976424517, 3257644548, 2159244792, 3015546726, 1321951765, 1457127034, 1008018749, 1340492242, 3250697729, 1439525819, 2116389080, 3128629141, 3912463512, 2778908372, 5179345, 2764285036, 4013718511, 76636421, 2440399146, 4124147582, 1565329027, 2314846721, 2825257189, 554997050, 2676063690, 3230428478, 4066464853, 3785792675, 3491102306, 1012514472, 710423760, 1104362914, 1402276434, 870434098, 64327618, 245834932, 4099459452, 3866904251, 2240453378, 1724463324, 1330601334, 3433676187, 829295067, 3806454686, 950099493, 4293362446, 594307004, 79190971, 2311908688, 54171305, 62487414, 3504337811, 2771970015, 1836590151, 2595431378, 3416341100, 3453307109, 1174988285, 2852396363, 346848325, 2368812712, 226406421, 3941277996, 3989222844, 3009299209, 1702732764, 2598609657, 3925497101, 331397553, 388553728, 3553027581, 2831176302, 1171547784, 2429194224, 1919275555, 2943364212, 392528745, 2077320491, 416107366, 3505919650, 2641506636, 3367202201, 2496764115, 223919825, 271108961, 2545966472, 1316212361, 3137675020, 49774935, 2744430138, 3230926645, 1183214045, 1795720081, 3453588112, 891938360, 4144344690, 2777301904, 1995233055, 3359734316, 896930090, 3330969507, 3223398016, 1321717194, 4215086939, 3506673919, 100418703, 2598322782, 1873905913, 1698737593, 1965703533, 60435064, 1751428005, 1152971074, 3618663090, 3158488445, 3727477430, 657970680, 1511931134, 1717050987, 310598970, 2234372010, 1017571582, 4084110079, 2305036871, 4254307802, 2941750258, 2165051637, 1472622743, 2543351527, 1796705211, 2214600371, 686749318, 4022876929, 2100068217, 3727699398, 3217299548, 275738892, 78573358, 2500678662, 2944914056, 1277909152, 2318080503, 3799903604, 2033312710, 1430582106, 2681053359, 427226790, 4052010686, 1405513990, 283355798, 2154582023, 3237342184, 2326232545, 3053750987, 3682467274, 4258665988, 1693455081, 3276042809, 1890575484, 3321173492, 1435919955, 372744468, 2288550928, 130181578, 464432903, 2644098717, 850876397, 366381834, 1912868480, 4114884255, 2076074274, 2025154398, 3191648339, 1180631776, 1821926123, 142706752, 3139028750, 3108622860, 1876156978, 3356317510, 3260050869, 2334989316, 747109268, 4016280193, 2897996881, 2994915453, 803723030, 1933605890, 3104516246, 533383945, 701195023, 2592103620, 1356972692, 1491149426, 4160117465, 3960597945, 2567279869, 1374045353, 3117232482, 139766291, 2589485771, 1707073928, 3210823559, 537281128, 10518971, 1901873126, 2898897661, 573642982, 760245815, 3807024923, 2334167321, 1211114995, 3530176240, 1229318785, 3602144670, 1250553934, 1010089880, 2172233573, 2688964066, 3758094780, 2941802101, 1581001398, 3746782544, 2917164021, 252667418, 1150188760, 3542252877, 1389159379, 1906599979, 3288259755, 778740684, 358910446, 26153786, 443928973, 1407665083, 298990169, 3405562703, 504530202, 3362938768, 1086122129, 3588952012, 177358838, 1668686040, 1788441005, 2920778456, 3450590302, 1707705043, 3940504028, 1650147200, 2144853533, 429939140, 2060161875, 226622212, 1271791848, 3603087696, 48155551, 966813043, 984177119, 3033759521, 3492815891, 2391190442, 3575857178, 3965974952, 459455113, 59851712, 416034666, 1727702234, 3862955095, 2038677741, 405912737, 3651584525, 1433865433, 4162114042, 319642522, 120211088, 3610217925, 1667950605, 284010502, 2536690859, 1757606927, 98163371, 1298766898, 2843598018, 2749694903, 3031345259, 2633279512, 2812045979, 34084905, 2989448216, 3311204930, 763257776, 747261640, 127287928, 326017657, 2610204813, 3746483709, 1345625337, 76875111, 1840566970, 4008707741, 1079217633]

theorem range'_split (s m n : Nat) :
    List.range' s (m + n) = List.range' s m ++ List.range' (s + m) n := by
  have h := List.range'_append s m n 1
  rw [Nat.one_mul] at h
  rw [Nat.add_comm n m] at h
  exact h.symm

set_option maxRecDepth 10000 in
theorem initGenrand_19650218 : initGenrand 19650218 = mtA := by
  have h := initSeg mtA (by decide) (certA_spec mtA (by decide) (by decide)) 623 (by omega)
  rw [initGenrand, List.range_eq_range']
  rw [show (19650218 : Nat) % M32 = mtA.getD 0 0 from by decide]
  rw [h]
  decide

set_option maxRecDepth 10000 in
theorem ibaPhase1_42 : ibaPhase1 [42] mtA = (mtM3, 2, 0) := by
  rw [ibaPhase1, List.range_eq_range',
    show max 624 (List.length [42]) = 624 from by decide,
    show (624 : Nat) = 622 + 2 from rfl, range'_split, List.foldl_append]
  have hseg := phase1_seg mtA mtM1 (by decide) (by decide) 1 (le_refl 1)
    (certB_spec mtA mtM1 (by decide) (by decide) (by decide)) 622 1 0 (le_refl 1) (by omega)
  rw [show ((mtA : List Nat), 1, 0) = ((mtM1.take 1 ++ mtA.drop 1 : List Nat), 1, 0) from by
    decide]
  rw [hseg]
  rw [show mtM1.take (1 + 622) ++ mtA.drop (1 + 622) = mtM1 from by decide]
  rw [show (1 : Nat) + 622 = 623 from rfl]
  decide

set_option maxRecDepth 10000 in
theorem ibaPhase2_42 : ibaPhase2 mtM3 2 = (mtN3, 2) := by
  rw [ibaPhase2, List.range_eq_range',
    show (623 : Nat) = 621 + 2 from rfl, range'_split, List.foldl_append]
  have hseg := phase2_seg mtM3 mtN1 (by decide) (by decide) 2 (by omega)
    (certC_spec mtM3 mtN1 (by decide) (by decide) (by decide)) 621 2 0 (le_refl 2) (by omega)
  rw [show ((mtM3 : List Nat), 2) = ((mtN1.take 2 ++ mtM3.drop 2 : List Nat), 2) from by decide]
  rw [hseg]
  rw [show mtN1.take (2 + 621) ++ mtM3.drop (2 + 621) = mtN1 from by decide]
  rw [show (2 : Nat) + 621 = 623 from rfl]
  decide

set_option maxRecDepth 10000 in
theorem seedMT_42 : seedMT 42 = ⟨mtS, 624⟩ := by
  conv_lhs => rw [seedMT]
  simp only [show toKey 42 = [42] from by decide, initGenrand_19650218, ibaPhase1_42,
    ibaPhase2_42]
  decide

set_option maxRecDepth 10000 in
theorem twist_mtS : twist mtS = mtT := by
  have h := twistSeg mtS mtT (by decide) (by decide)
    (certD_spec mtS mtT (by decide) (by decide) (by decide)) 624 0 (by omega)
  rw [List.take_zero, List.drop_zero, List.nil_append] at h
  rw [twist, List.range_eq_range', h]
  decide

set_option maxRecDepth 10000 in
theorem genrand_shift (m₁ m₂ : List Nat) (htw : twist m₁ = m₂) :
    genrand ⟨m₁, 624⟩ = genrand ⟨m₂, 0⟩ := by
  conv_lhs => rw [genrand]
  conv_rhs => rw [genrand]
  simp only [htw, show ((624 : Nat) ≥ 624) = True from by decide,
    show ((0 : Nat) ≥ 624) = False from by decide, if_true, if_false]

theorem getrandbits_congr (k : Nat) (s₁ s₂ : MTState) (h : genrand s₁ = genrand s₂) :
    getrandbits s₁ k = getrandbits s₂ k := by
  rw [getrandbits, getrandbits]
  show grbAux ((k - 1) / 32 + 1) k s₁ = grbAux ((k - 1) / 32 + 1) k s₂
  simp only [grbAux, h]

theorem randbelowLoop_congr (fuel k n : Nat) (s₁ s₂ : MTState)
    (h : getrandbits s₁ k = getrandbits s₂ k) :
    randbelowLoop (fuel + 1) k n s₁ = randbelowLoop (fuel + 1) k n s₂ := by
  simp only [randbelowLoop, h]

theorem randbelow_congr (fuel n : Nat) (s₁ s₂ : MTState) (hn : n ≠ 0)
    (h : genrand s₁ = genrand s₂) :
    randbelow (fuel + 1) n s₁ = randbelow (fuel + 1) n s₂ := by
  rw [randbelow, randbelow, if_neg hn, if_neg hn]
  exact randbelowLoop_congr fuel (pyBitLength n) n s₁ s₂ (getrandbits_congr _ s₁ s₂ h)

theorem poolLoop_congr (fuel c m : Nat) (pool : List Nat) (s₁ s₂ : MTState)
    (hm : m ≠ 0) (h : genrand s₁ = genrand s₂) :
    poolLoop (fuel + 1) (c + 1) m pool s₁ = poolLoop (fuel + 1) (c + 1) m pool s₂ := by
  simp only [poolLoop, randbelow_congr fuel m s₁ s₂ hm h]

theorem pySample_shift : pySample 100 ⟨mtS, 624⟩ 4 2 = pySample 100 ⟨mtT, 0⟩ 4 2 := by
  rw [pySample, pySample, if_pos (by decide), if_pos (by decide),
    if_pos (by decide), if_pos (by decide)]
  exact poolLoop_congr 99 1 4 (List.range 4) _ _ (by norm_num) (genrand_shift mtS mtT twist_mtS)

set_option maxRecDepth 100000 in
theorem pySample_42_first : pySample 100 ⟨mtT, 0⟩ 4 2 = some ([0, 3], ⟨mtT, 3⟩) := by decide

set_option maxRecDepth 100000 in
theorem pySample_42_second : pySample 100 ⟨mtT, 3⟩ 4 2 = some ([2, 0], ⟨mtT, 6⟩) := by decide

set_option maxRecDepth 100000 in
theorem randomMask_42_first :
    randomMaskIndices 100 (1/2) (seedMT 42) 4 = some ({0, 3}, ⟨mtT, 3⟩) := by
  show (pySample 100 (seedMT 42) 4 ((⌊((4 : Nat) : ℚ) * (1/2)⌋).toNat)).map
      (fun pr => (pr.1.toFinset, pr.2)) = some ({0, 3}, ⟨mtT, 3⟩)
  rw [show ((⌊((4 : Nat) : ℚ) * (1/2)⌋).toNat) = 2 from by
    rw [show ⌊((4 : Nat) : ℚ) * (1/2)⌋ = 2 from by norm_num]
    decide, seedMT_42, pySample_shift, pySample_42_first]
  rfl

set_option maxRecDepth 100000 in
theorem randomMask_42_second :
    randomMaskIndices 100 (1/2) ⟨mtT, 3⟩ 4 = some ({2, 0}, ⟨mtT, 6⟩) := by
  show (pySample 100 (⟨mtT, 3⟩ : MTState) 4 ((⌊((4 : Nat) : ℚ) * (1/2)⌋).toNat)).map
      (fun pr => (pr.1.toFinset, pr.2)) = some ({2, 0}, ⟨mtT, 6⟩)
  rw [show ((⌊((4 : Nat) : ℚ) * (1/2)⌋).toNat) = 2 from by
    rw [show ⌊((4 : Nat) : ℚ) * (1/2)⌋ = 2 from by norm_num]
    decide, pySample_42_second]
  rfl

/-- C1, counterexample: `RandomMasking` with ratio 1/2 seeded with 42, applied
to 4 clips, masks `{0, 3}`; applied again (same instance, so resuming from the
advanced generator state) it masks `{2, 0}` — re-application does not
reproduce the first mask, refuting the as-stated determinism conjunct. -/
theorem C1_counterexample_reapplied_mask :
    (randomMaskIndices 100 (1/2) (seedMT 42) 4).map (fun pr => pr.1) = some {0, 3} ∧
    ((randomMaskIndices 100 (1/2) (seedMT 42) 4).bind
      (fun pr => randomMaskIndices 100 (1/2) pr.2 4)).map (fun pr => pr.1) = some {2, 0} ∧
    ({0, 3} : Finset Nat) ≠ ({2, 0} : Finset Nat) := by
  refine ⟨?_, ?_,
    fun h => absurd (h ▸ (by simp : (3 : Nat) ∈ ({0, 3} : Finset Nat))) (by simp)⟩
  · rw [randomMask_42_first]
    rfl
  · rw [randomMask_42_first]
    show (randomMaskIndices 100 (1/2) ⟨mtT, 3⟩ 4).map (fun pr => pr.1) = some {2, 0}
    rw [randomMask_42_second]
    rfl

/-- Witness for C1 at seed 42, ratio 1/2, 4 clips: the mask `{0, 3}` has
`⌊4 * (1/2)⌋ = 2` elements, all below 4. -/
theorem C1_random_masking_floor_witness :
    ((0 : ℚ) ≤ 1/2) ∧
    (((({0, 3} : Finset Nat).card : ℤ) = ⌊((4 : Nat) : ℚ) * (1/2)⌋) ∧
      ∀ x ∈ ({0, 3} : Finset Nat), x < 4) :=
  ⟨by norm_num,
    C1_random_masking_floor 100 (1/2) (seedMT 42) 4 {0, 3} ⟨mtT, 3⟩ (by norm_num)
      randomMask_42_first⟩

end CaptionRecon
